import Mathlib

/-!
Verification of the office-layout placement and scoring engine.

This file shallowly embeds the core of the repository (geometry kernel,
desk–chair composer, workstation pattern generators, wall equipment
placement, scoring guard and ranking) as executable Lean definitions and
proves, or refutes, the frozen claims about them.

Embedding conventions:
* Python ints are `Int`; all coordinates are millimeters.
* Python float expressions in the source are of the exact form
  `v / 2.0` applied to integers, or square roots compared against
  radii.  Halving followed by Python `int()` (truncation toward zero) is
  `truncHalf`; square-root comparisons `sqrt v <= r` / `sqrt v >= r` are
  replaced by the equivalent comparisons of `v` with `r ^ 2` (exact for
  the integer values involved).  Center points `(x + w/2, y + d/2)` are
  carried as doubled integer coordinates (`item_center2`).
* Python dict lookups that can raise `KeyError`, and the one function
  that can raise `ValueError`, return `Option`; `none` models the raised
  exception.
* The unbounded `while` loops of the source advance a strictly monotone
  counter whenever the step is positive; they are embedded as
  fuel-indexed recursions with enough fuel for every terminating run of
  the Python code (the Python loops diverge for non-positive steps,
  which only arise from degenerate catalog entries).
* Python's stable `list.sort(key=..., reverse=True)` is embedded as a
  stable descending insertion sort, which computes the same function.
-/

/- ======================= geometry.py ======================= -/

structure Rect where
  x : Int
  y : Int
  w : Int
  d : Int
deriving DecidableEq

def Rect.x2 (r : Rect) : Int := r.x + r.w

def Rect.y2 (r : Rect) : Int := r.y + r.d

def intersects (a b : Rect) : Bool :=
  !(decide (a.x2 ≤ b.x) || decide (a.x ≥ b.x2) || decide (a.y2 ≤ b.y) || decide (a.y ≥ b.y2))

def inside_room (r : Rect) (room_w room_d : Int) : Bool :=
  decide (r.x ≥ 0) && decide (r.y ≥ 0) && decide (r.x2 ≤ room_w) && decide (r.y2 ≤ room_d)

def intersects_any (r : Rect) (blocks : List Rect) : Bool :=
  blocks.any (fun b => intersects r b)

def can_place (r : Rect) (room_w room_d : Int) (blocks : List Rect) : Bool :=
  inside_room r room_w room_d && !(intersects_any r blocks)

def check_desk_chair_collision (desk_rect chair_rect : Rect) (blocks : List Rect)
    (room_w room_d : Int) : Bool :=
  inside_room desk_rect room_w room_d && inside_room chair_rect room_w room_d &&
    !(intersects_any desk_rect blocks) && !(intersects_any chair_rect blocks)

/- ======================= constants.py (fallback values) ======================= -/

def CHAIR_SIZE : Int := 700

def CHAIR_DESK_GAP : Int := 5

def DEFAULT_DESK_DEPTH : Int := 600

/- ======================= numeric and string helpers ======================= -/

/-- Python `int()` applied to the exact value `n / 2`: truncation toward zero. -/
def truncHalf (n : Int) : Int :=
  if 0 ≤ n then ((n.toNat / 2 : Nat) : Int) else -(((-n).toNat / 2 : Nat) : Int)

/-- Python `str.replace("ws_", "")`: remove every (left-to-right,
non-overlapping) occurrence of the three-character marker. -/
def stripWsMarker : List Char → List Char
  | 'w' :: 's' :: '_' :: rest => stripWsMarker rest
  | c :: rest => c :: stripWsMarker rest
  | [] => []

/-- Python `str.split("x")` on the character list. -/
def splitOnX : List Char → List (List Char)
  | [] => [[]]
  | c :: rest =>
    if c = 'x' then [] :: splitOnX rest
    else
      match splitOnX rest with
      | g :: gs => (c :: g) :: gs
      | [] => [[c]]

def isSpaceChar (c : Char) : Bool := c = ' ' || c = '\t' || c = '\n' || c = '\r'

def stripSpaces (cs : List Char) : List Char :=
  ((cs.dropWhile isSpaceChar).reverse.dropWhile isSpaceChar).reverse

def digitsToNatAux : List Char → Nat → Option Nat
  | [], acc => some acc
  | c :: rest, acc =>
    if c.isDigit then digitsToNatAux rest (acc * 10 + (c.toNat - '0'.toNat)) else none

/-- Python `int(str)` restricted to optional surrounding whitespace, an
optional sign and decimal digits (underscore separators and non-ASCII
digits, which never occur in catalog ids, are not modeled). -/
def pyIntChars : List Char → Option Int :=
  fun cs =>
    match stripSpaces cs with
    | [] => none
    | '+' :: rest => if rest = [] then none else (digitsToNatAux rest 0).map Int.ofNat
    | '-' :: rest => if rest = [] then none else (digitsToNatAux rest 0).map (fun n => -(Int.ofNat n))
    | t => (digitsToNatAux t 0).map Int.ofNat

def upperChar (c : Char) : Char := if c.isLower then Char.ofNat (c.toNat - 32) else c

/-- Python `str.upper()` for the ASCII strings used as wall/side tags. -/
def pyUpper (s : String) : String := String.mk (s.toList.map upperChar)

def lowerChar (c : Char) : Char := if c.isUpper then Char.ofNat (c.toNat + 32) else c

/-- Python `str.lower()` for the ASCII strings used as direction tags. -/
def pyLower (s : String) : String := String.mk (s.toList.map lowerChar)

/- ======================= desk_chair.py ======================= -/

/-- The `try` body of `_parse_desk_depth`; `none` models the caught exception. -/
def parse_desk_depth_opt (ws_type : String) : Option Int :=
  match splitOnX (stripWsMarker ws_type.toList) with
  | [_, b] => pyIntChars b
  | _ => none

def parse_desk_depth (ws_type : String) : Int :=
  (parse_desk_depth_opt ws_type).getD DEFAULT_DESK_DEPTH

/-- `calc_chair_rect`: the source computes
`int(desk_x + desk_w/2.0 - chair_size/2.0)` which equals
`truncHalf (2*desk_x + desk_w - chair_size)` exactly. -/
def calc_chair_rect (desk_x desk_y desk_w desk_d : Int) (chair_direction : String) : Rect :=
  if chair_direction = "T" then
    { x := truncHalf (2 * desk_x + desk_w - CHAIR_SIZE),
      y := desk_y - CHAIR_DESK_GAP - CHAIR_SIZE, w := CHAIR_SIZE, d := CHAIR_SIZE }
  else if chair_direction = "B" then
    { x := truncHalf (2 * desk_x + desk_w - CHAIR_SIZE),
      y := desk_y + desk_d + CHAIR_DESK_GAP, w := CHAIR_SIZE, d := CHAIR_SIZE }
  else if chair_direction = "L" then
    { x := desk_x - CHAIR_DESK_GAP - CHAIR_SIZE,
      y := truncHalf (2 * desk_y + desk_d - CHAIR_SIZE), w := CHAIR_SIZE, d := CHAIR_SIZE }
  else
    { x := desk_x + desk_w + CHAIR_DESK_GAP,
      y := truncHalf (2 * desk_y + desk_d - CHAIR_SIZE), w := CHAIR_SIZE, d := CHAIR_SIZE }

def calc_wall_desk_chair_rects (room_size : Int) (ws_type wall_side : String)
    (position unit_along_wall unit_depth : Int) (is_horizontal : Bool) :
    Rect × Rect × String :=
  let desk_depth := min (parse_desk_depth ws_type) unit_depth
  let t : Int × Int × String × Int × Int :=
    if is_horizontal then
      if wall_side = "T" then (position, 0, "B", unit_along_wall, desk_depth)
      else (position, room_size - desk_depth, "T", unit_along_wall, desk_depth)
    else
      if wall_side = "L" then (0, position, "R", desk_depth, unit_along_wall)
      else (room_size - desk_depth, position, "L", desk_depth, unit_along_wall)
  match t with
  | (desk_x, desk_y, chair_dir, desk_w, desk_d) =>
    ({ x := desk_x, y := desk_y, w := desk_w, d := desk_d },
     calc_chair_rect desk_x desk_y desk_w desk_d chair_dir, chair_dir)

def can_place_desk_chair (room_size room_w room_d : Int) (ws_type wall_side : String)
    (position unit_along_wall unit_depth : Int) (is_horizontal : Bool)
    (pillar_blocks : List Rect) : Bool :=
  match calc_wall_desk_chair_rects room_size ws_type wall_side position unit_along_wall
      unit_depth is_horizontal with
  | (desk_rect, chair_rect, _) =>
    check_desk_chair_collision desk_rect chair_rect pillar_blocks room_w room_d

/-- A placed layout item.  Dimension-annotation items ("dim_v") carry no
label in the source and their x0/y0/y1 keys duplicate the rect fields;
`dim_text` holds their text. -/
structure Item where
  ty : String
  rect : Rect
  label : Option String := none
  chair_back : Option String := none
  chair_rotate : Option Int := none
  dim_text : Option String := none
deriving DecidableEq

/-- `add_desk_and_chair`: appends one desk item and one chair item; the
inline chair computation of the source is exactly `calc_chair_rect`. -/
def add_desk_and_chair (items : List Item) (labelPref : String) (_ws_type : String)
    (desk_x desk_y desk_w desk_d : Int) (chair_direction : String)
    (chair_rotate_deg : Int := 0) : List Item :=
  let desk_rect : Rect := { x := desk_x, y := desk_y, w := desk_w, d := desk_d }
  let chair_rect := calc_chair_rect desk_x desk_y desk_w desk_d chair_direction
  let back_side :=
    if chair_direction = "T" then "T"
    else if chair_direction = "B" then "B"
    else if chair_direction = "L" then "L"
    else "R"
  items ++
    [{ ty := "desk", rect := desk_rect, label := some (labelPref ++ "_D") },
     { ty := "chair", rect := chair_rect, label := some (labelPref ++ "_C"),
       chair_back := some back_side, chair_rotate := some chair_rotate_deg }]

def add_wall_desk_and_chair (items : List Item) (labelPref : String) (room_size : Int)
    (ws_type wall_side : String) (position unit_along_wall unit_depth : Int)
    (is_horizontal : Bool) : List Item :=
  let desk_depth := min (parse_desk_depth ws_type) unit_depth
  if is_horizontal then
    if wall_side = "T" then
      add_desk_and_chair items labelPref ws_type position 0 unit_along_wall desk_depth "B"
    else
      add_desk_and_chair items labelPref ws_type position (room_size - desk_depth)
        unit_along_wall desk_depth "T"
  else
    if wall_side = "L" then
      add_desk_and_chair items labelPref ws_type 0 position desk_depth unit_along_wall "R"
    else
      add_desk_and_chair items labelPref ws_type (room_size - desk_depth) position
        desk_depth unit_along_wall "L"

def add_free_desk_and_chair (items : List Item) (labelPref ws_type : String)
    (x y desk_w unit_depth : Int) (chair_side : String)
    (desk_depth_override : Option Int := none) : List Item :=
  let desk_depth :=
    match desk_depth_override with
    | some v => min v unit_depth
    | none => min (parse_desk_depth ws_type) unit_depth
  let chair_dir := if chair_side = "down" then "B" else "T"
  add_desk_and_chair items labelPref ws_type x y desk_w desk_depth chair_dir

def add_lr_desk_and_chair (items : List Item) (labelPref ws_type : String)
    (x y desk_w desk_d : Int) (chair_side : String) (chair_rotate_deg : Int := 0) :
    List Item :=
  add_desk_and_chair items labelPref ws_type x y desk_w desk_d chair_side chair_rotate_deg

/- ======================= patterns.py: point/door helpers ======================= -/

/-- The common `dx`/`dy` computation of `_clear_of_point`,
`_rect_point_distance` and `_door_clearance_ok_for_items`. -/
def rect_point_dxdy (r : Rect) (pt : Int × Int) : Int × Int :=
  (if pt.1 < r.x then r.x - pt.1 else if pt.1 > r.x2 then pt.1 - r.x2 else 0,
   if pt.2 < r.y then r.y - pt.2 else if pt.2 > r.y2 then pt.2 - r.y2 else 0)

/-- Squared distance from a rectangle to a point; the source compares
the square root of this with a radius, which for a positive radius is
equivalent to comparing this value with the squared radius. -/
def rect_point_sqdist (r : Rect) (pt : Int × Int) : Int :=
  (rect_point_dxdy r pt).1 ^ 2 + (rect_point_dxdy r pt).2 ^ 2

/-- `_clear_of_point`: `sqrt sqdist >= radius`, exactly
`radius ≤ 0 ∨ radius^2 ≤ sqdist`. -/
def clear_of_point (r : Rect) (pt : Option (Int × Int)) (radius_mm : Int) : Bool :=
  match pt with
  | none => true
  | some p => decide (radius_mm ≤ 0) || decide (radius_mm ^ 2 ≤ rect_point_sqdist r p)

/-- The `_side_length_facing` helper inside `_door_clearance_ok_for_items`. -/
def side_length_facing (r : Rect) (door_tip : Int × Int) : Int :=
  let dx := (rect_point_dxdy r door_tip).1
  let dy := (rect_point_dxdy r door_tip).2
  if dx = 0 ∧ dy = 0 then min r.w r.d
  else if dx ≥ dy then r.d
  else r.w

/-- Python `min(desk_rects, key=distance)`: the first rectangle of
minimal distance (comparison of distances is comparison of squares). -/
def nearest_rect_to_point (ds : List Rect) (pt : Int × Int) : Option Rect :=
  match ds with
  | [] => none
  | d :: rest =>
    some (rest.foldl
      (fun best r => if rect_point_sqdist r pt < rect_point_sqdist best pt then r else best) d)

def door_clearance_ok_for_items (items : List Item) (door_tip : Option (Int × Int)) : Bool :=
  match door_tip with
  | none => true
  | some tip =>
    let desk_rects := (items.filter (fun it => it.ty == "desk")).map Item.rect
    match nearest_rect_to_point desk_rects tip with
    | none => true
    | some nearest =>
      let side_len := side_length_facing nearest tip
      let short_side := min nearest.w nearest.d
      let required : Int := if side_len = short_side then 200 else 900
      decide (required ^ 2 ≤ rect_point_sqdist nearest tip)

/- ======================= furniture catalog and results ======================= -/

structure FurnSpec where
  w : Int
  d : Int
deriving DecidableEq

/-- The furniture dict; `none` on a key models a Python `KeyError`. -/
abbrev Furniture := String → Option FurnSpec

def ws_size (furniture : Furniture) (ws_type : String) : Option (Int × Int) :=
  (furniture ws_type).map (fun f => (f.w, f.d))

/-- A generator result dict.  The two equipment fields are only present
(`some`) after `place_equipment_along_wall` has added them. -/
structure Candidate where
  ok : Bool
  seats_placed : Int
  seats_required : Int
  items : List Item
  ws_type : String
  pattern : String
  equipment_target : Option Nat := none
  equipment_placed : Option Nat := none
deriving DecidableEq

/- ======================= place_workstations_double_wall ======================= -/

/-- State of the wall-sweep loops: sweep coordinate, next seat index,
the `placed` collision list and the emitted items. -/
structure SweepState where
  pos : Int
  seat_idx : Int
  placed : List Rect
  items : List Item
deriving DecidableEq

def dw_try_left (room_w room_d : Int) (ws_type : String) (ws_w ws_d : Int)
    (door_tip : Option (Int × Int)) (door_clear_radius : Int)
    (pillar_blocks : List Rect) (seats_required : Int) (s : SweepState) : SweepState :=
  let left_unit : Rect := { x := 0, y := s.pos, w := ws_d, d := ws_w }
  let can_left :=
    can_place left_unit room_w room_d s.placed &&
    clear_of_point left_unit door_tip door_clear_radius &&
    can_place_desk_chair room_w room_w room_d ws_type "L" s.pos ws_w ws_d false pillar_blocks &&
    decide (s.seat_idx ≤ seats_required)
  if can_left then
    { pos := s.pos, seat_idx := s.seat_idx + 1, placed := s.placed ++ [left_unit],
      items := add_wall_desk_and_chair s.items ("WS" ++ toString s.seat_idx) room_w ws_type
        "L" s.pos ws_w ws_d false }
  else s

def dw_try_right (room_w room_d : Int) (ws_type : String) (ws_w ws_d : Int)
    (door_tip : Option (Int × Int)) (door_clear_radius : Int)
    (pillar_blocks : List Rect) (seats_required : Int) (s : SweepState) : SweepState :=
  let right_unit : Rect := { x := room_w - ws_d, y := s.pos, w := ws_d, d := ws_w }
  let can_right :=
    can_place right_unit room_w room_d s.placed &&
    clear_of_point right_unit door_tip door_clear_radius &&
    can_place_desk_chair room_w room_w room_d ws_type "R" s.pos ws_w ws_d false pillar_blocks &&
    decide (s.seat_idx ≤ seats_required)
  if can_right then
    { pos := s.pos, seat_idx := s.seat_idx + 1, placed := s.placed ++ [right_unit],
      items := add_wall_desk_and_chair s.items ("WS" ++ toString s.seat_idx) room_w ws_type
        "R" s.pos ws_w ws_d false }
  else s

def dw_loop (room_w room_d : Int) (ws_type : String) (ws_w ws_d gap_y : Int)
    (door_tip : Option (Int × Int)) (door_clear_radius : Int)
    (pillar_blocks : List Rect) (seats_required : Int) : Nat → SweepState → SweepState
  | 0, s => s
  | Nat.succ fuel, s =>
    if s.pos ≤ room_d - ws_w ∧ s.seat_idx ≤ seats_required then
      let s1 := dw_try_left room_w room_d ws_type ws_w ws_d door_tip door_clear_radius
        pillar_blocks seats_required s
      let s2 := dw_try_right room_w room_d ws_type ws_w ws_d door_tip door_clear_radius
        pillar_blocks seats_required s1
      dw_loop room_w room_d ws_type ws_w ws_d gap_y door_tip door_clear_radius
        pillar_blocks seats_required fuel { s2 with pos := s2.pos + ws_w + gap_y }
    else s

/-- Fuel bound for the wall sweeps: whenever the per-step advance is at
least 1 (any real catalog) the Python loop runs at most `room_d + 1`
times; for non-positive steps the Python loop does not terminate. -/
def dw_fuel (room_d : Int) : Nat := room_d.toNat + 2

def place_workstations_double_wall (room_w room_d : Int) (furniture : Furniture)
    (ws_type : String) (seats_required : Int) (blocks : List Rect) (gap_y : Int := 0)
    (door_tip : Option (Int × Int) := none) (door_clear_radius : Int := 900) :
    Option Candidate :=
  match ws_size furniture ws_type with
  | none => none
  | some (ws_w, ws_d) =>
    let s := dw_loop room_w room_d ws_type ws_w ws_d gap_y door_tip door_clear_radius
      blocks seats_required (dw_fuel room_d)
      { pos := 0, seat_idx := 1, placed := blocks, items := [] }
    let seats_placed := s.seat_idx - 1
    some { ok := decide (seats_placed ≥ seats_required) &&
             door_clearance_ok_for_items s.items door_tip,
           seats_placed := seats_placed, seats_required := seats_required,
           items := s.items, ws_type := ws_type, pattern := "double_wall" }

/-- The saturated seat count of the double-wall sweep: the seat guard of
a run with this many required seats never binds, so its `seats_placed`
is the capacity of the room for this pattern. -/
def dw_capacity (room_w room_d : Int) (furniture : Furniture) (ws_type : String)
    (blocks : List Rect) (gap_y : Int) (door_tip : Option (Int × Int))
    (door_clear_radius : Int) : Int :=
  match place_workstations_double_wall room_w room_d furniture ws_type
      (2 * (dw_fuel room_d : Int) + 2) blocks gap_y door_tip door_clear_radius with
  | some c => c.seats_placed
  | none => 0

/- ======================= place_workstations_single_wall ======================= -/

def sw_try (room_w room_d : Int) (ws_type wall_side : String) (x : Int)
    (ws_w ws_d : Int) (door_tip : Option (Int × Int)) (door_clear_radius : Int)
    (pillar_blocks : List Rect) (s : SweepState) : SweepState :=
  let unit : Rect := { x := x, y := s.pos, w := ws_d, d := ws_w }
  let can_here :=
    can_place unit room_w room_d s.placed &&
    clear_of_point unit door_tip door_clear_radius &&
    can_place_desk_chair room_w room_w room_d ws_type wall_side s.pos ws_w ws_d false
      pillar_blocks
  if can_here then
    { pos := s.pos, seat_idx := s.seat_idx + 1, placed := s.placed ++ [unit],
      items := add_wall_desk_and_chair s.items ("WS" ++ toString s.seat_idx) room_w
        ws_type wall_side s.pos ws_w ws_d false }
  else s

def sw_loop (room_w room_d : Int) (ws_type wall_side : String) (x : Int)
    (ws_w ws_d gap_y : Int) (door_tip : Option (Int × Int)) (door_clear_radius : Int)
    (pillar_blocks : List Rect) (seats_required : Int) : Nat → SweepState → SweepState
  | 0, s => s
  | Nat.succ fuel, s =>
    if s.pos ≤ room_d - ws_w ∧ s.seat_idx ≤ seats_required then
      let s1 := sw_try room_w room_d ws_type wall_side x ws_w ws_d door_tip
        door_clear_radius pillar_blocks s
      sw_loop room_w room_d ws_type wall_side x ws_w ws_d gap_y door_tip door_clear_radius
        pillar_blocks seats_required fuel { s1 with pos := s1.pos + ws_w + gap_y }
    else s

def place_workstations_single_wall (room_w room_d : Int) (furniture : Furniture)
    (ws_type : String) (seats_required : Int) (blocks : List Rect) (side : String := "L")
    (gap_y : Int := 0) (door_tip : Option (Int × Int) := none)
    (door_clear_radius : Int := 900) : Option Candidate :=
  match ws_size furniture ws_type with
  | none => none
  | some (ws_w, ws_d) =>
    let x := if side = "L" then 0 else room_w - ws_d
    let wall_side := if side = "L" then "L" else "R"
    let s := sw_loop room_w room_d ws_type wall_side x ws_w ws_d gap_y door_tip
      door_clear_radius blocks seats_required (dw_fuel room_d)
      { pos := 0, seat_idx := 1, placed := blocks, items := [] }
    let seats_placed := s.seat_idx - 1
    some { ok := decide (seats_placed ≥ seats_required) &&
             door_clearance_ok_for_items s.items door_tip,
           seats_placed := seats_placed, seats_required := seats_required,
           items := s.items, ws_type := ws_type, pattern := "single_wall_" ++ side }

/- ======================= place_workstations_face_to_face_center ======================= -/

structure F2fState where
  x : Int
  seat_idx : Int
  placed : List Rect
  items : List Item
  unit_rects : List Rect
  units_placed : Int
deriving DecidableEq

/-- The two guarded desk additions of one accepted face-to-face unit:
returns the new item list and seat index. -/
def f2f_add_pair (ws_type : String) (ws_w desk_depth seats_target x center_line : Int)
    (items : List Item) (seat_idx : Int) : List Item × Int :=
  let top_desk_y := center_line - desk_depth
  let bottom_desk_y := center_line
  let st1 : List Item × Int :=
    if seat_idx ≤ seats_target then
      (add_free_desk_and_chair items ("WS" ++ toString seat_idx) ws_type x top_desk_y ws_w
        desk_depth "up" (some desk_depth), seat_idx + 1)
    else (items, seat_idx)
  if st1.2 ≤ seats_target then
    (add_free_desk_and_chair st1.1 ("WS" ++ toString st1.2) ws_type x bottom_desk_y ws_w
      desk_depth "down" (some desk_depth), st1.2 + 1)
  else st1

def f2f_pair_loop (room_w room_d : Int) (ws_type : String) (ws_w desk_depth : Int)
    (unit_w_x unit_d_y gap_x y0 center_line seats_target : Int)
    (door_tip : Option (Int × Int)) (total_units : Int) : Nat → F2fState → F2fState
  | 0, s => s
  | Nat.succ fuel, s =>
    if s.units_placed < total_units ∧ s.x ≤ room_w - unit_w_x then
      let r : Rect := { x := s.x, y := y0, w := unit_w_x, d := unit_d_y }
      if can_place r room_w room_d s.placed && clear_of_point r door_tip 200 then
        let st2 := f2f_add_pair ws_type ws_w desk_depth seats_target s.x center_line
          s.items s.seat_idx
        f2f_pair_loop room_w room_d ws_type ws_w desk_depth unit_w_x unit_d_y gap_x y0
          center_line seats_target door_tip total_units fuel
          { x := s.x + unit_w_x + gap_x, seat_idx := st2.2, placed := s.placed ++ [r],
            items := st2.1, unit_rects := s.unit_rects ++ [r],
            units_placed := s.units_placed + 1 }
      else
        f2f_pair_loop room_w room_d ws_type ws_w desk_depth unit_w_x unit_d_y gap_x y0
          center_line seats_target door_tip total_units fuel
          { s with x := s.x + unit_w_x + gap_x }
    else s

/-- One candidate of the odd-seat rotated-desk loop; `none` models `continue`.
The source computes `desk_y = room_d/2.0 - rotated_d/2.0` and truncates it
inside the `Rect` constructor, which is `truncHalf (room_d - rotated_d)`. -/
def f2f_single_attempt (room_w room_d : Int) (ws_type : String) (placed : List Rect)
    (door_tip : Option (Int × Int)) (items : List Item) (seat_idx : Int)
    (attach_side : String) (unit_rect : Rect) : Option (List Item) :=
  let rotated_w : Int := 600
  let rotated_d : Int := 1200
  let desk_x? : Option Int :=
    if attach_side = "R" then
      let dx := unit_rect.x + unit_rect.w
      if room_w - (dx + rotated_w) < 1000 then none else some dx
    else
      let dx := unit_rect.x - rotated_w
      if dx < 1000 then none else some dx
  match desk_x? with
  | none => none
  | some desk_x =>
    let desk_y := truncHalf (room_d - rotated_d)
    let rotated_rect : Rect := { x := desk_x, y := desk_y, w := rotated_w, d := rotated_d }
    if !(can_place rotated_rect room_w room_d placed) ||
        !(clear_of_point rotated_rect door_tip 900) then none
    else
      some (add_lr_desk_and_chair items ("WS" ++ toString seat_idx) ws_type desk_x desk_y
        rotated_w rotated_d attach_side 90)

def f2f_single_loop (room_w room_d : Int) (ws_type : String) (placed : List Rect)
    (door_tip : Option (Int × Int)) (items : List Item) (seat_idx : Int) :
    List (String × Rect) → Option (List Item)
  | [] => none
  | (side, u) :: rest =>
    match f2f_single_attempt room_w room_d ws_type placed door_tip items seat_idx side u with
    | some items2 => some items2
    | none => f2f_single_loop room_w room_d ws_type placed door_tip items seat_idx rest

def f2f_fail (seats_required : Int) (ws_type : String) : Candidate :=
  { ok := false, seats_placed := 0, seats_required := seats_required, items := [],
    ws_type := ws_type, pattern := "face_to_face_center" }

def dummyRect : Rect := { x := 0, y := 0, w := 0, d := 0 }

/-- The door-side x_start/y0 adjustment of `face_to_face_center`
(count-irrelevant geometry, factored out of the main body). -/
def f2f_start_adjust (door_side_u : String)
    (room_w total_w x_start0 room_d unit_d_y y0a : Int) : Int × Int :=
  (if door_side_u = "L" then room_w - total_w
   else if door_side_u = "R" then 0
   else x_start0,
   if door_side_u = "T" then room_d - unit_d_y
   else if door_side_u = "B" then 0
   else y0a)

/-- The odd-seat-count desk-depth override block of `face_to_face_center`. -/
def f2f_depth_unit (has_single : Bool) (desk_depth0 unit_d_y y0b center_line : Int) :
    Int × Int × Int :=
  if has_single then (600, 1200, center_line - 600) else (desk_depth0, unit_d_y, y0b)

/-- The door-rectangle avoidance adjustment of y0 in `face_to_face_center`. -/
def f2f_y0_door_adjust (door_rect : Option Rect) (door_side_u : String)
    (room_d unit_d_y2 y0d : Int) : Int :=
  match door_rect with
  | some dr =>
    if (door_side_u = "L" ∨ door_side_u = "R") ∧
        ¬ (y0d + unit_d_y2 ≤ dr.y ∨ y0d ≥ dr.y2) then
      let y0_down := dr.y2
      let y0_up := dr.y - unit_d_y2
      if 0 ≤ y0_down ∧ y0_down + unit_d_y2 ≤ room_d then y0_down
      else if 0 ≤ y0_up ∧ y0_up + unit_d_y2 ≤ room_d then y0_up
      else y0d
    else y0d
  | none => y0d

/-- The short-wall-door reset of the sweep start in `face_to_face_center`. -/
def f2f_x_start_final (door_rect : Option Rect) (door_side_u : String) (x_start1 : Int) :
    Int :=
  if door_rect.isSome ∧ (door_side_u = "T" ∨ door_side_u = "B") then 0 else x_start1

/-- The candidate order for the odd rotated desk in `face_to_face_center`. -/
def f2f_single_candidates (door_side_u : String) (leftmost rightmost : Rect) :
    List (String × Rect) :=
  if door_side_u = "L" then [("R", rightmost), ("L", leftmost)]
  else if door_side_u = "R" then [("L", leftmost), ("R", rightmost)]
  else [("R", rightmost), ("L", leftmost)]

/-- The trailing dimension-annotation block of `face_to_face_center`:
appends the two "dim_v" items when at least one desk was placed. -/
def f2f_append_dims (room_w room_d center_line desk_depth : Int) (items2 : List Item) :
    List Item :=
  let desk_items := items2.filter (fun it => it.ty == "desk")
  if desk_items ≠ [] then
    let leftmost := (desk_items.tail).foldl
      (fun best it => if it.rect.x < best.rect.x then it else best)
      (desk_items.headD { ty := "desk", rect := dummyRect })
    let dim_x0 := truncHalf (2 * leftmost.rect.x + leftmost.rect.w)
    let dim_x := max 60 (min (room_w - 60) dim_x0)
    let wall_half : Int := 5
    let top_desk := center_line - desk_depth
    let bottom_desk := center_line + desk_depth
    let inner_top := wall_half
    let inner_bottom := room_d - wall_half
    let top_gap := max 0 (top_desk - inner_top)
    let bottom_gap := max 0 (inner_bottom - bottom_desk)
    items2 ++
      [{ ty := "dim_v",
         rect := { x := dim_x, y := inner_top, w := 0, d := top_gap },
         dim_text := some (toString top_gap) },
       { ty := "dim_v",
         rect := { x := dim_x, y := inner_bottom - bottom_gap, w := 0, d := bottom_gap },
         dim_text := some (toString bottom_gap) }]
  else items2

/-- The tail of `face_to_face_center` after the pair sweep: the odd-seat
rotated desk attempt, the dimension annotations and the result record. -/
def f2f_finish (room_w room_d : Int) (ws_type : String) (seats_required : Int)
    (center_line desk_depth : Int) (door_side_u : String)
    (door_tip : Option (Int × Int)) (s : F2fState) : Candidate :=
  let has_single := decide (seats_required % 2 = 1)
  let seats_target := seats_required
  let afterSingle : Option (Int × List Item) :=
    if has_single = true ∧ s.seat_idx ≤ seats_target ∧ s.unit_rects ≠ [] then
      match f2f_single_loop room_w room_d ws_type s.placed door_tip s.items s.seat_idx
          (f2f_single_candidates door_side_u (s.unit_rects.headD dummyRect)
            (s.unit_rects.getLastD dummyRect)) with
      | some items2 => some (s.seat_idx + 1, items2)
      | none => none
    else some (s.seat_idx, s.items)
  match afterSingle with
  | none =>
    { ok := false, seats_placed := s.seat_idx - 1, seats_required := seats_required,
      items := s.items, ws_type := ws_type, pattern := "face_to_face_center" }
  | some (seat_idx2, items2) =>
    let seats_placed := seat_idx2 - 1
    let items3 := f2f_append_dims room_w room_d center_line desk_depth items2
    { ok := decide (seats_placed ≥ seats_required) &&
        door_clearance_ok_for_items items3 door_tip,
      seats_placed := seats_placed, seats_required := seats_required, items := items3,
      ws_type := ws_type, pattern := "face_to_face_center" }

def place_workstations_face_to_face_center (room_w room_d : Int) (furniture : Furniture)
    (ws_type : String) (seats_required : Int) (blocks : List Rect) (gap_x : Int := 0)
    (door_side : String := "") (door_rect : Option Rect := none)
    (door_tip : Option (Int × Int) := none) : Option Candidate :=
  match ws_size furniture ws_type with
  | none => none
  | some (ws_w, ws_d) =>
    if room_d < ws_d * 2 then some (f2f_fail seats_required ws_type)
    else
      let pairs := Int.fdiv seats_required 2
      let has_single := decide (seats_required % 2 = 1)
      let seats_target := seats_required
      let unit_w_x := ws_w
      let unit_d_y := ws_d * 2
      let total_units := pairs
      let total_w := total_units * unit_w_x + max 0 (total_units - 1) * gap_x
      if total_w > room_w then some (f2f_fail seats_required ws_type)
      else
        let door_side_u := pyUpper door_side
        let x_start0 := truncHalf (room_w - total_w)
        let center_line := truncHalf room_d
        let y0a := center_line - ws_d
        let xy := f2f_start_adjust door_side_u room_w total_w x_start0 room_d unit_d_y y0a
        let desk_depth0 := min (parse_desk_depth ws_type) ws_d
        let ddu := f2f_depth_unit has_single desk_depth0 unit_d_y xy.2 center_line
        let desk_depth := ddu.1
        let unit_d_y2 := ddu.2.1
        let y0c := ddu.2.2
        let chair_space := CHAIR_SIZE + CHAIR_DESK_GAP
        let min_back_clearance := max chair_space 850
        let y0_min := min_back_clearance
        let y0_max := room_d - unit_d_y2 - min_back_clearance
        if ¬ (y0_max ≥ y0_min) then some (f2f_fail seats_required ws_type)
        else
          let y0d := max y0_min (min y0_max y0c)
          let y0e := f2f_y0_door_adjust door_rect door_side_u room_d unit_d_y2 y0d
          let x_start := f2f_x_start_final door_rect door_side_u xy.1
          some (f2f_finish room_w room_d ws_type seats_required center_line desk_depth
            door_side_u door_tip
            (f2f_pair_loop room_w room_d ws_type ws_w desk_depth unit_w_x unit_d_y2 gap_x
              y0e center_line seats_target door_tip total_units (room_w.toNat + 2)
              { x := x_start, seat_idx := 1, placed := blocks, items := [],
                unit_rects := [], units_placed := 0 }))

/- ======================= place_workstations_mixed ======================= -/

structure MixedState where
  pos : Int
  seat_idx : Int
  wall_placed : Int
  placed : List Rect
  items : List Item
deriving DecidableEq

/-- The left/right wall-seat phase of `place_workstations_mixed`
(`wall` is "L" or "R"); the sweep coordinate is y. -/
def mixed_wall_loop_lr (room_w room_d : Int) (ws_type wall : String)
    (unit_w_x unit_d_y : Int) (door_tip : Option (Int × Int)) (door_clear_radius : Int)
    (pillar_blocks : List Rect) (wall_seats seats_required : Int) :
    Nat → MixedState → MixedState
  | 0, s => s
  | Nat.succ fuel, s =>
    if s.wall_placed < wall_seats ∧ s.seat_idx ≤ seats_required ∧
        s.pos + unit_d_y ≤ room_d then
      let unit : Rect :=
        { x := if wall = "L" then 0 else room_w - unit_w_x, y := s.pos, w := unit_w_x,
          d := unit_d_y }
      let can_here :=
        can_place unit room_w room_d s.placed &&
        clear_of_point unit door_tip door_clear_radius &&
        can_place_desk_chair room_w room_w room_d ws_type wall s.pos unit_d_y unit_w_x false
          pillar_blocks
      let s1 :=
        if can_here then
          { pos := s.pos, seat_idx := s.seat_idx + 1, wall_placed := s.wall_placed + 1,
            placed := s.placed ++ [unit],
            items := add_wall_desk_and_chair s.items ("WS" ++ toString s.seat_idx) room_w
              ws_type wall s.pos unit_d_y unit_w_x false }
        else s
      mixed_wall_loop_lr room_w room_d ws_type wall unit_w_x unit_d_y door_tip
        door_clear_radius pillar_blocks wall_seats seats_required fuel
        { s1 with pos := s1.pos + unit_d_y }
    else s

/-- The top/bottom wall-seat phase of `place_workstations_mixed`
(`wall` is "T" or "B"); the sweep coordinate is x. -/
def mixed_wall_loop_tb (room_w room_d : Int) (ws_type wall : String)
    (unit_w_x unit_d_y : Int) (door_tip : Option (Int × Int)) (door_clear_radius : Int)
    (pillar_blocks : List Rect) (wall_seats seats_required : Int) :
    Nat → MixedState → MixedState
  | 0, s => s
  | Nat.succ fuel, s =>
    if s.wall_placed < wall_seats ∧ s.seat_idx ≤ seats_required ∧
        s.pos + unit_w_x ≤ room_w then
      let unit : Rect :=
        { x := s.pos, y := if wall = "T" then 0 else room_d - unit_d_y, w := unit_w_x,
          d := unit_d_y }
      let can_here :=
        can_place unit room_w room_d s.placed &&
        clear_of_point unit door_tip door_clear_radius &&
        can_place_desk_chair room_d room_w room_d ws_type wall s.pos unit_w_x unit_d_y true
          pillar_blocks
      let s1 :=
        if can_here then
          { pos := s.pos, seat_idx := s.seat_idx + 1, wall_placed := s.wall_placed + 1,
            placed := s.placed ++ [unit],
            items := add_wall_desk_and_chair s.items ("WS" ++ toString s.seat_idx) room_d
              ws_type wall s.pos unit_w_x unit_d_y true }
        else s
      mixed_wall_loop_tb room_w room_d ws_type wall unit_w_x unit_d_y door_tip
        door_clear_radius pillar_blocks wall_seats seats_required fuel
        { s1 with pos := s1.pos + unit_w_x }
    else s

structure MixedFaceState where
  x : Int
  seat_idx : Int
  placed : List Rect
  items : List Item
deriving DecidableEq

/-- The `for _ in range(pairs_needed)` face-to-face phase of
`place_workstations_mixed`; both `break`s return the state unchanged. -/
def mixed_face_loop (room_w room_d : Int) (ws_type : String) (ws_w desk_depth : Int)
    (face_unit_w_x face_unit_d_y y0 : Int) (door_tip : Option (Int × Int))
    (seats_required : Int) : Nat → MixedFaceState → MixedFaceState
  | 0, s => s
  | Nat.succ n, s =>
    if s.seat_idx > seats_required then s
    else if s.x + face_unit_w_x > room_w then s
    else
      let unit : Rect := { x := s.x, y := y0, w := face_unit_w_x, d := face_unit_d_y }
      if can_place unit room_w room_d s.placed && clear_of_point unit door_tip 200 then
        let items2 := add_free_desk_and_chair s.items ("WS" ++ toString s.seat_idx) ws_type
          s.x y0 ws_w desk_depth "up" (some desk_depth)
        let seat2 := s.seat_idx + 1
        let st3 : List Item × Int :=
          if seat2 ≤ seats_required then
            (add_free_desk_and_chair items2 ("WS" ++ toString seat2) ws_type s.x
              (y0 + face_unit_d_y - desk_depth) ws_w desk_depth "down" (some desk_depth),
             seat2 + 1)
          else (items2, seat2)
        mixed_face_loop room_w room_d ws_type ws_w desk_depth face_unit_w_x face_unit_d_y
          y0 door_tip seats_required n
          { x := s.x + face_unit_w_x, seat_idx := st3.2, placed := s.placed ++ [unit],
            items := st3.1 }
      else
        mixed_face_loop room_w room_d ws_type ws_w desk_depth face_unit_w_x face_unit_d_y
          y0 door_tip seats_required n { s with x := s.x + face_unit_w_x }

/-- The result record shared by the three return sites of
`place_workstations_mixed`. -/
def mixed_finish (seats_required : Int) (ws_type : String) (seat_idx : Int)
    (items : List Item) : Candidate :=
  { ok := decide (seat_idx - 1 ≥ seats_required), seats_placed := seat_idx - 1,
    seats_required := seats_required, items := items, ws_type := ws_type,
    pattern := "mixed" }

def place_workstations_mixed (room_w room_d : Int) (furniture : Furniture)
    (ws_type : String) (seats_required : Int) (blocks : List Rect) (wall_seats : Int := 2)
    (wall_side : String := "L") (door_tip : Option (Int × Int) := none)
    (door_clear_radius : Int := 900) : Option Candidate :=
  match ws_size furniture ws_type with
  | none => none
  | some (ws_w, ws_d) =>
    let wall_side_u := pyUpper (if wall_side = "" then "L" else wall_side)
    let is_horizontal := wall_side_u = "T" ∨ wall_side_u = "B"
    let unit_w_x := if is_horizontal then ws_w else ws_d
    let unit_d_y := if is_horizontal then ws_d else ws_w
    let s0 : MixedState :=
      { pos := 0, seat_idx := 1, wall_placed := 0, placed := blocks, items := [] }
    let s :=
      if wall_side_u = "L" then
        mixed_wall_loop_lr room_w room_d ws_type "L" unit_w_x unit_d_y door_tip
          door_clear_radius blocks wall_seats seats_required (dw_fuel room_d) s0
      else if wall_side_u = "R" then
        mixed_wall_loop_lr room_w room_d ws_type "R" unit_w_x unit_d_y door_tip
          door_clear_radius blocks wall_seats seats_required (dw_fuel room_d) s0
      else if wall_side_u = "T" then
        mixed_wall_loop_tb room_w room_d ws_type "T" unit_w_x unit_d_y door_tip
          door_clear_radius blocks wall_seats seats_required (dw_fuel room_w) s0
      else
        mixed_wall_loop_tb room_w room_d ws_type "B" unit_w_x unit_d_y door_tip
          door_clear_radius blocks wall_seats seats_required (dw_fuel room_w) s0
    let remaining_seats := seats_required - (s.seat_idx - 1)
    let fin : Int × List Item :=
      if remaining_seats > 0 then
        let face_unit_w_x := ws_w
        let face_unit_d_y := ws_d * 2
        if room_d < face_unit_d_y then (s.seat_idx, s.items)
        else
          let pairs_needed := Int.fdiv (remaining_seats + 1) 2
          let center_line := truncHalf room_d
          let y0 := center_line - ws_d
          let x_start := if wall_side_u = "L" then unit_w_x + 100 else 0
          let desk_depth := min (parse_desk_depth ws_type) ws_d
          let sf := mixed_face_loop room_w room_d ws_type ws_w desk_depth face_unit_w_x
            face_unit_d_y y0 door_tip seats_required pairs_needed.toNat
            { x := x_start, seat_idx := s.seat_idx, placed := s.placed, items := s.items }
          (sf.seat_idx, sf.items)
      else (s.seat_idx, s.items)
    some (mixed_finish seats_required ws_type fin.1 fin.2)

/- ======================= place_equipment_wall_only ======================= -/

/-- Twice the center of a rect (`_item_center` scaled by 2 to stay in
integers); all uses compare consistently doubled quantities. -/
def item_center2 (r : Rect) : Int × Int := (2 * r.x + r.w, 2 * r.y + r.d)

/-- The avoid-centers test of `place_equipment_wall_only`:
`sqrt ((cx-ax)^2 + (cy-ay)^2) <= radius` with doubled coordinates,
i.e. `(2cx-ax2)^2 + (2cy-ay2)^2 ≤ (2 radius)^2` (and a negative radius
never satisfies the source comparison). -/
def eq_too_close (r : Rect) (centers2 : List (Int × Int)) (radius : Int) : Bool :=
  centers2.any (fun c =>
    decide (0 ≤ radius) &&
    decide (((item_center2 r).1 - c.1) ^ 2 + ((item_center2 r).2 - c.2) ^ 2 ≤
      (2 * radius) ^ 2))

def clearance_ok_same_wall (r : Rect) (desk_rects : List Rect) (wall : String)
    (clearance_mm : Int) : Bool :=
  if clearance_mm ≤ 0 then true
  else if desk_rects = [] then true
  else if wall = "L" ∨ wall = "R" then
    desk_rects.all (fun dd =>
      let gap := if r.y ≥ dd.y2 then r.y - dd.y2 else if dd.y ≥ r.y2 then dd.y - r.y2 else 0
      decide (gap ≥ clearance_mm))
  else
    desk_rects.all (fun dd =>
      let gap := if r.x ≥ dd.x2 then r.x - dd.x2 else if dd.x ≥ r.x2 then dd.x - r.x2 else 0
      decide (gap ≥ clearance_mm))

/-- The inner `while 0 <= pos <= max_pos` scan of one equipment item;
returns the accepted position and rectangle, or `none` if the scan runs
out of range.  `x` is the fixed cross coordinate for L/R walls, `ywall`
the fixed cross coordinate for T/B walls. -/
def eq_scan (room_w room_d : Int) (wall : String) (along depth : Int)
    (avoid_centers2 : List (Int × Int)) (avoid_radius_mm : Option Int)
    (desk_rects_same_wall : Option (List Rect)) (desk_clearance_mm : Int)
    (x ywall max_pos step : Int) (placed : List Rect) : Nat → Int → Option (Int × Rect)
  | 0, _ => none
  | Nat.succ fuel, pos =>
    if 0 ≤ pos ∧ pos ≤ max_pos then
      let r : Rect :=
        if wall = "L" ∨ wall = "R" then { x := x, y := pos, w := depth, d := along }
        else { x := pos, y := ywall, w := along, d := depth }
      if (avoid_centers2 ≠ [] ∧ (avoid_radius_mm.getD 0) ≠ 0) &&
          eq_too_close r avoid_centers2 (avoid_radius_mm.getD 0) then
        eq_scan room_w room_d wall along depth avoid_centers2 avoid_radius_mm
          desk_rects_same_wall desk_clearance_mm x ywall max_pos step placed fuel (pos + step)
      else if (match desk_rects_same_wall with
          | some ds => !(clearance_ok_same_wall r ds wall desk_clearance_mm)
          | none => false) then
        eq_scan room_w room_d wall along depth avoid_centers2 avoid_radius_mm
          desk_rects_same_wall desk_clearance_mm x ywall max_pos step placed fuel (pos + step)
      else if can_place r room_w room_d placed then some (pos, r)
      else
        eq_scan room_w room_d wall along depth avoid_centers2 avoid_radius_mm
          desk_rects_same_wall desk_clearance_mm x ywall max_pos step placed fuel (pos + step)
    else none

/-- State threading the mutable locals of `place_equipment_wall_only`
across the `for eq in equipment` iterations. -/
structure EqState where
  items : List Item
  placed : List Rect
  y : Int
  start_y : Int
  idx : Int
deriving DecidableEq

/-- One `for eq in equipment` iteration; `none` models the `KeyError`
of `furniture[eq]`. -/
def eq_place_one (room_w room_d : Int) (furniture : Furniture) (wall : String)
    (gap_y : Int) (avoid_centers2 : List (Int × Int)) (avoid_radius_mm : Option Int)
    (desk_rects_same_wall : Option (List Rect)) (desk_clearance_mm : Int)
    (equipment_clearance_mm : Int) (start_from : String) (eq : String) (s : EqState) :
    Option EqState :=
  match furniture eq with
  | none => none
  | some spec =>
    let w0 := spec.w
    let d0 := spec.d
    let along := max w0 d0
    let depth := min w0 d0
    let lr := wall = "L" ∨ wall = "R"
    let x := if wall = "L" then 0 else room_w - depth
    let ywall := if wall = "T" then 0 else room_d - depth
    let max_pos := if lr then room_d - along else room_w - along
    let pos0 := if lr then s.y else s.start_y
    let from_end := pyLower (if start_from = "" then "start" else start_from) = "end"
    let pos_start := if from_end then max_pos else pos0
    let step : Int := if from_end then -50 else 50
    match eq_scan room_w room_d wall along depth avoid_centers2 avoid_radius_mm
        desk_rects_same_wall desk_clearance_mm x ywall max_pos step s.placed
        (max_pos.toNat / 50 + 2) pos_start with
    | some (pos, r) =>
      let items2 := s.items ++ [{ ty := eq, rect := r, label := some ("EQ" ++ toString s.idx) }]
      let placed2 := s.placed ++ [r]
      let placed3 :=
        if equipment_clearance_mm > 0 then
          placed2 ++
            [if lr then
               { x := r.x, y := r.y - equipment_clearance_mm, w := r.w,
                 d := r.d + equipment_clearance_mm * 2 }
             else
               { x := r.x - equipment_clearance_mm, y := r.y,
                 w := r.w + equipment_clearance_mm * 2, d := r.d }]
        else placed2
      some { items := items2, placed := placed3,
             y := if lr then pos + along + gap_y else ywall,
             start_y := if lr then s.start_y else pos + along + gap_y, idx := s.idx + 1 }
    | none =>
      some { s with y := if lr then s.y else ywall }

def eq_items_loop (room_w room_d : Int) (furniture : Furniture) (wall : String)
    (gap_y : Int) (avoid_centers2 : List (Int × Int)) (avoid_radius_mm : Option Int)
    (desk_rects_same_wall : Option (List Rect)) (desk_clearance_mm : Int)
    (equipment_clearance_mm : Int) (start_from : String) :
    List String → EqState → Option EqState
  | [], s => some s
  | eq :: rest, s =>
    match eq_place_one room_w room_d furniture wall gap_y avoid_centers2 avoid_radius_mm
        desk_rects_same_wall desk_clearance_mm equipment_clearance_mm start_from eq s with
    | none => none
    | some s2 =>
      eq_items_loop room_w room_d furniture wall gap_y avoid_centers2 avoid_radius_mm
        desk_rects_same_wall desk_clearance_mm equipment_clearance_mm start_from rest s2

/-- `place_equipment_wall_only`; `none` models the `ValueError` for an
invalid wall or a `KeyError` for a missing catalog key. -/
def place_equipment_wall_only (room_w room_d : Int) (furniture : Furniture)
    (equipment : List String) (blocks : List Rect) (wall : String) (start_y : Int := 0)
    (gap_y : Int := 50) (avoid_centers2 : List (Int × Int) := [])
    (avoid_radius_mm : Option Int := none)
    (desk_rects_same_wall : Option (List Rect) := none) (desk_clearance_mm : Int := 200)
    (equipment_clearance_mm : Int := 100) (start_from : String := "start") :
    Option (List Item × List Rect) :=
  if ¬ (wall = "L" ∨ wall = "R" ∨ wall = "T" ∨ wall = "B") then none
  else
    (eq_items_loop room_w room_d furniture wall gap_y avoid_centers2 avoid_radius_mm
        desk_rects_same_wall desk_clearance_mm equipment_clearance_mm start_from equipment
        { items := [], placed := blocks, y := start_y, start_y := start_y, idx := 1 }).map
      (fun s => (s.items, s.placed))

/-- `_remove_equipment_types`: `list.remove` erases the first equal
element and the swallowed `ValueError` makes a missing element a no-op,
which is exactly `List.erase`; a falsy (empty) type is skipped. -/
def remove_equipment_types (remaining : List String) (placed_items : List Item) :
    List String :=
  placed_items.foldl (fun rest it => if it.ty = "" then rest else rest.erase it.ty) remaining

def rect_wall_sides (r : Rect) (room_w room_d : Int) : List String :=
  (if r.x = 0 then ["L"] else []) ++ (if r.x + r.w = room_w then ["R"] else []) ++
    (if r.y = 0 then ["T"] else []) ++ (if r.y + r.d = room_d then ["B"] else [])

/- ======================= place_equipment_along_wall ======================= -/

/-- The `for wall in walls` loop of `place_equipment_along_wall`;
returns the accumulated equipment items, the final placed list and the
remaining (unplaced) keys. -/
def eq_walls_loop (room_w room_d : Int) (furniture : Furniture)
    (desk_walls : List String) (desk_rects_by_wall : String → List Rect)
    (avoid_centers2 : List (Int × Int))
    (desk_clear_radius_mm desk_side_clearance_mm equipment_clearance_mm : Int)
    (door_side_u : String) (door_offset : Option Int) :
    List String → List String → List Item → List Rect →
    Option (List Item × List Rect × List String)
  | [], remaining, acc_items, placed => some (acc_items, placed, remaining)
  | wall :: walls, remaining, acc_items, placed =>
    if remaining = [] then some (acc_items, placed, remaining)
    else
      let side_by_side := desk_walls.contains wall
      let drsw := if side_by_side then some (desk_rects_by_wall wall) else none
      let start_from :=
        if wall = door_side_u then
          if door_side_u = "L" ∨ door_side_u = "R" then
            match door_offset with
            | some off => if 2 * off < room_d then "end" else "start"
            | none => "end"
          else if door_side_u = "T" ∨ door_side_u = "B" then
            match door_offset with
            | some off => if 2 * off < room_w then "end" else "start"
            | none => "end"
          else "start"
        else "start"
      match place_equipment_wall_only room_w room_d furniture remaining placed wall 0
          equipment_clearance_mm (if side_by_side then [] else avoid_centers2)
          (if side_by_side then none else some desk_clear_radius_mm) drsw
          desk_side_clearance_mm equipment_clearance_mm start_from with
      | none => none
      | some (eq_items, placed2) =>
        eq_walls_loop room_w room_d furniture desk_walls desk_rects_by_wall avoid_centers2
          desk_clear_radius_mm desk_side_clearance_mm equipment_clearance_mm door_side_u
          door_offset walls (remove_equipment_types remaining eq_items)
          (acc_items ++ eq_items) placed2

def place_equipment_along_wall (base_result : Candidate) (room_w room_d : Int)
    (furniture : Furniture) (equipment_list : List String) (blocks : List Rect)
    (equipment_x_override : Option Int := none) (desk_clear_radius_mm : Int := 1225)
    (desk_side_clearance_mm : Int := 200) (equipment_clearance_mm : Int := 100)
    (door_side : String := "") (door_offset : Option Int := none) : Option Candidate :=
  if equipment_list = [] then some base_result
  else
    let base_items := base_result.items
    let placed_rects := blocks ++ base_items.map Item.rect
    let desk_rects := (base_items.filter (fun it => it.ty == "desk")).map Item.rect
    let desk_walls := (desk_rects.map (fun r => rect_wall_sides r room_w room_d)).flatten
    let desk_rects_by_wall : String → List Rect := fun s =>
      desk_rects.filter (fun r => (rect_wall_sides r room_w room_d).contains s)
    let avoid_centers2 := desk_rects.map item_center2
    let door_side_u := pyUpper door_side
    let all_walls : List String := ["L", "R", "T", "B"]
    let walls0 :=
      if all_walls.contains door_side_u then (all_walls.erase door_side_u) ++ [door_side_u]
      else all_walls
    let walls :=
      match equipment_x_override with
      | some ox => if 2 * ox ≤ room_w then ["L"] else ["R"]
      | none => walls0
    match eq_walls_loop room_w room_d furniture desk_walls desk_rects_by_wall avoid_centers2
        desk_clear_radius_mm desk_side_clearance_mm equipment_clearance_mm door_side_u
        door_offset walls equipment_list [] placed_rects with
    | none => none
    | some (equipment_items, _, _) =>
      let out : Candidate :=
        { base_result with
          items := base_items ++ equipment_items,
          equipment_target := some equipment_list.length,
          equipment_placed := some equipment_items.length }
      some out

/- ======================= scoring.py ======================= -/

structure ScoreBreakdown where
  seat_count : ℚ := 0
  passage_width : ℚ := 0
  natural_light : ℚ := 0
  traffic_flow : ℚ := 0
  face_to_face_bonus : ℚ := 0
  space_efficiency : ℚ := 0
  desk_spacing : ℚ := 0
  area_per_person : ℚ := 0
  total : ℚ := 0
deriving DecidableEq

/-- The eight `_calc_*` sub-score functions of `scoring.py`, passed as
parameters: `calculate_layout_score` never evaluates them when the
candidate is not ok, and the claims below quantify over them. -/
structure Scorers where
  calc_seat_score : Candidate → Int → Int → ℚ
  calc_passage_score : Candidate → Int → Int → ℚ
  calc_natural_light_score : Candidate → Int → Int → Option (List String) → ℚ
  calc_traffic_flow_score : Candidate → Int → Int → Option (List (Int × Int)) → ℚ
  calc_face_to_face_bonus : Candidate → ℚ
  calc_space_efficiency_score : Candidate → Int → Int → ℚ
  calc_desk_spacing_score : Candidate → Int → Int → ℚ
  calc_area_per_person_score : Candidate → Int → Int → ℚ

/-- `weights.get(key, default)`; the `weights=None` route (loading the
config file, an I/O concern outside the core) is represented by the
caller passing the loaded dictionary. -/
abbrev Weights := String → Option ℚ

def calculate_layout_score (scorers : Scorers) (result : Candidate) (room_w room_d : Int)
    (weights : Weights) (door_positions : Option (List (Int × Int)) := none)
    (window_sides : Option (List String) := none) : ℚ × ScoreBreakdown :=
  if result.ok = false then (0, {}) else
  let seat_score := scorers.calc_seat_score result room_w room_d
  let passage_score := scorers.calc_passage_score result room_w room_d
  let light_score := scorers.calc_natural_light_score result room_w room_d window_sides
  let flow_score := scorers.calc_traffic_flow_score result room_w room_d door_positions
  let face_bonus := scorers.calc_face_to_face_bonus result
  let efficiency_score := scorers.calc_space_efficiency_score result room_w room_d
  let desk_spacing_score := scorers.calc_desk_spacing_score result room_w room_d
  let area_per_person_score := scorers.calc_area_per_person_score result room_w room_d
  let breakdown : ScoreBreakdown :=
    { seat_count := seat_score * ((weights "seat_count").getD 1),
      passage_width := passage_score * ((weights "passage_width").getD (8/10)),
      natural_light := light_score * ((weights "natural_light").getD (5/10)),
      traffic_flow := flow_score * ((weights "traffic_flow").getD (6/10)),
      face_to_face_bonus := face_bonus * ((weights "face_to_face_bonus").getD (3/10)),
      space_efficiency := efficiency_score * ((weights "space_efficiency").getD (4/10)),
      desk_spacing := desk_spacing_score * ((weights "desk_spacing").getD (7/10)),
      area_per_person := area_per_person_score * ((weights "area_per_person").getD (6/10)) }
  let total := breakdown.seat_count + breakdown.passage_width + breakdown.natural_light +
    breakdown.traffic_flow + breakdown.face_to_face_bonus + breakdown.space_efficiency +
    breakdown.desk_spacing + breakdown.area_per_person
  (total, { breakdown with total := total })

/-- One insertion step of the stable descending sort: `x` goes in front
of the first strictly smaller score, hence after all earlier elements
with an equal score. -/
def insert_desc (x : Nat × ℚ × ScoreBreakdown) :
    List (Nat × ℚ × ScoreBreakdown) → List (Nat × ℚ × ScoreBreakdown)
  | [] => [x]
  | y :: ys => if y.2.1 < x.2.1 then x :: y :: ys else y :: insert_desc x ys

/-- Python's stable `scored.sort(key=lambda t: t[1], reverse=True)`:
a stable sort is a unique function of the key order, computed here by
stable insertion. -/
def sort_desc (l : List (Nat × ℚ × ScoreBreakdown)) : List (Nat × ℚ × ScoreBreakdown) :=
  l.foldl (fun acc x => insert_desc x acc) []

def compare_layouts (scorers : Scorers) (results : List Candidate) (room_w room_d : Int)
    (weights : Weights) (door_positions : Option (List (Int × Int)) := none)
    (window_sides : Option (List String) := none) : List (Nat × ℚ × ScoreBreakdown) :=
  sort_desc ((results.enum).map (fun p =>
    (p.1, calculate_layout_score scorers p.2 room_w room_d weights door_positions
      window_sides)))

/- ======================= spec-side and auxiliary definitions ======================= -/

/-- Modelled from the spec: two open axis-aligned rectangles overlap,
i.e. some (rational) point is strictly inside both.  Used only to state
the refinement claim about `intersects`. -/
def specOpenRectOverlap (a b : Rect) : Prop :=
  ∃ px py : ℚ, (a.x : ℚ) < px ∧ px < (a.x2 : ℚ) ∧ (b.x : ℚ) < px ∧ px < (b.x2 : ℚ) ∧
    (a.y : ℚ) < py ∧ py < (a.y2 : ℚ) ∧ (b.y : ℚ) < py ∧ py < (b.y2 : ℚ)

/-- Coordinatewise containment of rectangles. -/
def Rect.containsR (outer inner : Rect) : Prop :=
  outer.x ≤ inner.x ∧ inner.x2 ≤ outer.x2 ∧ outer.y ≤ inner.y ∧ inner.y2 ≤ outer.y2

/-- Number of items of a given type. -/
def countTy (items : List Item) (t : String) : Nat :=
  (items.filter (fun it => decide (it.ty = t))).length

def dummyItem : Item := { ty := "", rect := dummyRect }

/- ======================= concrete inputs for the refutations ======================= -/

/-- Catalog whose workstation unit is too short along the wall (600mm <
chair 700mm): consecutive chairs on one wall overlap. -/
def furC1 : Furniture := fun s => if s = "ws_600x600" then some { w := 600, d := 1400 } else none

def resC1 : Option Candidate :=
  place_workstations_double_wall 4000 2400 furC1 "ws_600x600" 4 [] 0 none 900

/-- Catalog for the mixed-pattern door-clearance refutation. -/
def furC2 : Furniture :=
  fun s => if s = "ws_1200x600" then some { w := 1200, d := 1500 } else none

def resC2 : Option Candidate :=
  place_workstations_mixed 3000 3600 furC2 "ws_1200x600" 2 [] 0 "L" (some (2200, 3550)) 900

/-- Base candidate for the equipment frame refutation. -/
def baseC5 : Candidate :=
  { ok := true, seats_placed := 1, seats_required := 1, items := [], ws_type := "t",
    pattern := "p" }

/-- Catalog for the seats-monotonicity refutation. -/
def furC7 : Furniture :=
  fun s => if s = "ws_1200x600" then some { w := 700, d := 1500 } else none

def dwC7 (r : Int) : Option Candidate :=
  place_workstations_double_wall 4000 1400 furC7 "ws_1200x600" r [] 0 none 900

/- concrete candidates extracted from the runs above, for the witnesses -/

def cW1 : Candidate := (dwC7 1).getD (f2f_fail 0 "")

def cW2 : Candidate := (dwC7 2).getD (f2f_fail 0 "")

def cWmixed : Candidate := resC2.getD (f2f_fail 0 "")

/-- Catalog with one storage unit, for the equipment witnesses. -/
def furE : Furniture :=
  fun s => if s = "storage_M" then some { w := 900, d := 450 } else none

def resE : Option Candidate :=
  place_equipment_along_wall baseC5 3000 3000 furE ["storage_M"] [] none 1225 200 100 "" none

def cWE : Candidate := resE.getD (f2f_fail 0 "")

/- ======================= basic lemmas ======================= -/

theorem truncHalf_bounds (n : Int) : n - 1 ≤ 2 * truncHalf n ∧ 2 * truncHalf n ≤ n + 1 := by
  unfold truncHalf
  split <;> omega

theorem truncHalf_even (n : Int) (h : n % 2 = 0) : 2 * truncHalf n = n := by
  unfold truncHalf
  split <;> omega

theorem intersects_eq_true_iff (a b : Rect) :
    intersects a b = true ↔ b.x < a.x2 ∧ a.x < b.x2 ∧ b.y < a.y2 ∧ a.y < b.y2 := by
  simp only [intersects, Rect.x2, Rect.y2, Bool.not_eq_true', Bool.or_eq_false_iff,
    decide_eq_false_iff_not, not_le, ge_iff_le]
  omega

theorem intersects_eq_false_iff (a b : Rect) :
    intersects a b = false ↔ a.x2 ≤ b.x ∨ b.x2 ≤ a.x ∨ a.y2 ≤ b.y ∨ b.y2 ≤ a.y := by
  rw [← Bool.not_eq_true, intersects_eq_true_iff]
  simp only [Rect.x2, Rect.y2]
  omega

theorem intersects_symm_false (a b : Rect) (h : intersects a b = false) :
    intersects b a = false := by
  rw [intersects_eq_false_iff] at h ⊢
  omega

theorem inside_room_eq_true_iff (r : Rect) (room_w room_d : Int) :
    inside_room r room_w room_d = true ↔
      0 ≤ r.x ∧ 0 ≤ r.y ∧ r.x2 ≤ room_w ∧ r.y2 ≤ room_d := by
  simp only [inside_room, Bool.and_eq_true, decide_eq_true_eq, ge_iff_le]
  tauto

theorem can_place_eq_true_iff (r : Rect) (room_w room_d : Int) (blocks : List Rect) :
    can_place r room_w room_d blocks = true ↔
      inside_room r room_w room_d = true ∧ ∀ b ∈ blocks, intersects r b = false := by
  simp only [can_place, intersects_any, Bool.and_eq_true, Bool.not_eq_true',
    List.any_eq_false, Bool.not_eq_true]

theorem check_desk_chair_collision_eq_true_iff (dr cr : Rect) (blocks : List Rect)
    (room_w room_d : Int) :
    check_desk_chair_collision dr cr blocks room_w room_d = true ↔
      inside_room dr room_w room_d = true ∧ inside_room cr room_w room_d = true ∧
      (∀ b ∈ blocks, intersects dr b = false) ∧ ∀ b ∈ blocks, intersects cr b = false := by
  simp only [check_desk_chair_collision, Bool.and_eq_true, Bool.not_eq_true',
    intersects_any, List.any_eq_false, Bool.not_eq_true]
  tauto

theorem intersects_false_of_containsR {A B a b : Rect} (hA : A.containsR a)
    (hB : B.containsR b) (h : intersects A B = false) : intersects a b = false := by
  rw [intersects_eq_false_iff] at h ⊢
  obtain ⟨h1, h2, h3, h4⟩ := hA
  obtain ⟨h5, h6, h7, h8⟩ := hB
  simp only [Rect.x2, Rect.y2] at *
  omega

theorem exists_rat_strictly_between (p q : Int) (h : p < q) :
    ∃ z : ℚ, (p : ℚ) < z ∧ z < (q : ℚ) := by
  refine ⟨(p : ℚ) + 1 / 2, by norm_num, ?_⟩
  have hq : (p : ℚ) + 1 ≤ (q : ℚ) := by
    have := Int.add_one_le_iff.mpr h
    exact_mod_cast this
  linarith

/-- C9: `intersects(a,b)` is true exactly when the open rectangles
overlap; rectangles that merely touch along an edge or corner
(`a.x2 = b.x`, `a.x = b.x2`, `a.y2 = b.y` or `a.y = b.y2`) do not
intersect. -/
theorem C9_intersects_iff_open_overlap (a b : Rect)
    (haw : 0 < a.w) (had : 0 < a.d) (hbw : 0 < b.w) (hbd : 0 < b.d) :
    (intersects a b = true ↔ specOpenRectOverlap a b) ∧
    ((a.x2 = b.x ∨ a.x = b.x2 ∨ a.y2 = b.y ∨ a.y = b.y2) → intersects a b = false) := by
  constructor
  · constructor
    · intro h
      rw [intersects_eq_true_iff] at h
      have hx : max a.x b.x < min a.x2 b.x2 := by
        simp only [Rect.x2] at *
        omega
      have hy : max a.y b.y < min a.y2 b.y2 := by
        simp only [Rect.y2] at *
        omega
      obtain ⟨px, hpx1, hpx2⟩ := exists_rat_strictly_between _ _ hx
      obtain ⟨py, hpy1, hpy2⟩ := exists_rat_strictly_between _ _ hy
      refine ⟨px, py, ?_, ?_, ?_, ?_, ?_, ?_, ?_, ?_⟩ <;>
      · push_cast at hpx1 hpx2 hpy1 hpy2
        simp only [lt_min_iff, max_lt_iff] at hpx1 hpx2 hpy1 hpy2
        linarith [hpx1.1, hpx1.2, hpx2.1, hpx2.2, hpy1.1, hpy1.2, hpy2.1, hpy2.2]
    · rintro ⟨px, py, h1, h2, h3, h4, h5, h6, h7, h8⟩
      rw [intersects_eq_true_iff]
      refine ⟨?_, ?_, ?_, ?_⟩
      · exact_mod_cast lt_trans h3 h2
      · exact_mod_cast lt_trans h1 h4
      · exact_mod_cast lt_trans h7 h6
      · exact_mod_cast lt_trans h5 h8
  · intro h
    rw [intersects_eq_false_iff]
    simp only [Rect.x2, Rect.y2] at *
    omega

/-- Witness for C9 at concrete rectangles. -/
theorem C9_intersects_iff_open_overlap_witness :
    (0 : Int) < (⟨0, 0, 2, 2⟩ : Rect).w ∧ (0 : Int) < (⟨0, 0, 2, 2⟩ : Rect).d ∧
    (0 : Int) < (⟨1, 1, 2, 2⟩ : Rect).w ∧ (0 : Int) < (⟨1, 1, 2, 2⟩ : Rect).d ∧
    ((intersects ⟨0, 0, 2, 2⟩ ⟨1, 1, 2, 2⟩ = true ↔
        specOpenRectOverlap ⟨0, 0, 2, 2⟩ ⟨1, 1, 2, 2⟩) ∧
      (((⟨0, 0, 2, 2⟩ : Rect).x2 = (⟨1, 1, 2, 2⟩ : Rect).x ∨
        (⟨0, 0, 2, 2⟩ : Rect).x = (⟨1, 1, 2, 2⟩ : Rect).x2 ∨
        (⟨0, 0, 2, 2⟩ : Rect).y2 = (⟨1, 1, 2, 2⟩ : Rect).y ∨
        (⟨0, 0, 2, 2⟩ : Rect).y = (⟨1, 1, 2, 2⟩ : Rect).y2) →
        intersects ⟨0, 0, 2, 2⟩ ⟨1, 1, 2, 2⟩ = false)) :=
  ⟨by decide, by decide, by decide, by decide,
   C9_intersects_iff_open_overlap ⟨0, 0, 2, 2⟩ ⟨1, 1, 2, 2⟩ (by decide) (by decide)
     (by decide) (by decide)⟩

/-- C4 refutation: for a desk of odd width (701mm) the computed chair is
NOT exactly centered on the desk along the orthogonal axis (the doubled
chair center is 700, the doubled desk center is 701). -/
theorem C4_exact_centering_counterexample :
    (calc_chair_rect 0 0 701 600 "T").w = 700 ∧
    (calc_chair_rect 0 0 701 600 "T").d = 700 ∧
    (calc_chair_rect 0 0 701 600 "T").y2 + CHAIR_DESK_GAP = 0 ∧
    ¬ (2 * (calc_chair_rect 0 0 701 600 "T").x + (calc_chair_rect 0 0 701 600 "T").w =
        2 * 0 + 701) := by decide

/-- C4 amended: for every desk rectangle and every cardinal chair
direction, the chair is exactly a 700x700 square whose near edge is
offset exactly 5mm from the designated desk edge; on the orthogonal
axis it is centered up to the integer truncation of the source (exactly
centered whenever the desk's orthogonal dimension is even, otherwise
the doubled centers differ by at most 1mm). -/
theorem C4_chair_rect_amended (desk_x desk_y desk_w desk_d : Int) (dir : String)
    (hdir : dir = "T" ∨ dir = "B" ∨ dir = "L" ∨ dir = "R") :
    ((calc_chair_rect desk_x desk_y desk_w desk_d dir).w = 700 ∧
     (calc_chair_rect desk_x desk_y desk_w desk_d dir).d = 700) ∧
    (dir = "T" → (calc_chair_rect desk_x desk_y desk_w desk_d dir).y2 + CHAIR_DESK_GAP =
      desk_y) ∧
    (dir = "B" → (calc_chair_rect desk_x desk_y desk_w desk_d dir).y =
      desk_y + desk_d + CHAIR_DESK_GAP) ∧
    (dir = "L" → (calc_chair_rect desk_x desk_y desk_w desk_d dir).x2 + CHAIR_DESK_GAP =
      desk_x) ∧
    (dir = "R" → (calc_chair_rect desk_x desk_y desk_w desk_d dir).x =
      desk_x + desk_w + CHAIR_DESK_GAP) ∧
    ((dir = "T" ∨ dir = "B") →
      (2 * desk_x + desk_w) - 1 ≤
          2 * (calc_chair_rect desk_x desk_y desk_w desk_d dir).x + 700 ∧
      2 * (calc_chair_rect desk_x desk_y desk_w desk_d dir).x + 700 ≤
          (2 * desk_x + desk_w) + 1 ∧
      (desk_w % 2 = 0 →
        2 * (calc_chair_rect desk_x desk_y desk_w desk_d dir).x + 700 =
          2 * desk_x + desk_w)) ∧
    ((dir = "L" ∨ dir = "R") →
      (2 * desk_y + desk_d) - 1 ≤
          2 * (calc_chair_rect desk_x desk_y desk_w desk_d dir).y + 700 ∧
      2 * (calc_chair_rect desk_x desk_y desk_w desk_d dir).y + 700 ≤
          (2 * desk_y + desk_d) + 1 ∧
      (desk_d % 2 = 0 →
        2 * (calc_chair_rect desk_x desk_y desk_w desk_d dir).y + 700 =
          2 * desk_y + desk_d)) := by
  have hb1 := truncHalf_bounds (2 * desk_x + desk_w - 700)
  have hb2 := truncHalf_bounds (2 * desk_y + desk_d - 700)
  have he1 : desk_w % 2 = 0 → 2 * truncHalf (2 * desk_x + desk_w - 700) =
      2 * desk_x + desk_w - 700 := fun h => truncHalf_even _ (by omega)
  have he2 : desk_d % 2 = 0 → 2 * truncHalf (2 * desk_y + desk_d - 700) =
      2 * desk_y + desk_d - 700 := fun h => truncHalf_even _ (by omega)
  rcases hdir with h | h | h | h <;> subst h
  · have hc : calc_chair_rect desk_x desk_y desk_w desk_d "T" =
        { x := truncHalf (2 * desk_x + desk_w - 700), y := desk_y - 5 - 700, w := 700,
          d := 700 } := rfl
    rw [hc]
    dsimp only
    refine ⟨⟨rfl, rfl⟩, fun _ => ?_, fun hx => absurd hx (by decide),
      fun hx => absurd hx (by decide), fun hx => absurd hx (by decide), fun _ => ?_,
      fun hx => ?_⟩
    · simp only [Rect.y2, CHAIR_DESK_GAP]
      omega
    · exact ⟨by omega, by omega, fun he => by have := he1 he; omega⟩
    · rcases hx with hx | hx <;> exact absurd hx (by decide)
  · have hc : calc_chair_rect desk_x desk_y desk_w desk_d "B" =
        { x := truncHalf (2 * desk_x + desk_w - 700), y := desk_y + desk_d + 5, w := 700,
          d := 700 } := rfl
    rw [hc]
    dsimp only
    refine ⟨⟨rfl, rfl⟩, fun hx => absurd hx (by decide), fun _ => ?_,
      fun hx => absurd hx (by decide), fun hx => absurd hx (by decide), fun _ => ?_,
      fun hx => ?_⟩
    · simp only [CHAIR_DESK_GAP]
    · exact ⟨by omega, by omega, fun he => by have := he1 he; omega⟩
    · rcases hx with hx | hx <;> exact absurd hx (by decide)
  · have hc : calc_chair_rect desk_x desk_y desk_w desk_d "L" =
        { x := desk_x - 5 - 700, y := truncHalf (2 * desk_y + desk_d - 700), w := 700,
          d := 700 } := rfl
    rw [hc]
    dsimp only
    refine ⟨⟨rfl, rfl⟩, fun hx => absurd hx (by decide), fun hx => absurd hx (by decide),
      fun _ => ?_, fun hx => absurd hx (by decide), fun hx => ?_, fun _ => ?_⟩
    · simp only [Rect.x2, CHAIR_DESK_GAP]
      omega
    · rcases hx with hx | hx <;> exact absurd hx (by decide)
    · exact ⟨by omega, by omega, fun he => by have := he2 he; omega⟩
  · have hc : calc_chair_rect desk_x desk_y desk_w desk_d "R" =
        { x := desk_x + desk_w + 5, y := truncHalf (2 * desk_y + desk_d - 700), w := 700,
          d := 700 } := rfl
    rw [hc]
    dsimp only
    refine ⟨⟨rfl, rfl⟩, fun hx => absurd hx (by decide), fun hx => absurd hx (by decide),
      fun hx => absurd hx (by decide), fun _ => ?_, fun hx => ?_, fun _ => ?_⟩
    · simp only [CHAIR_DESK_GAP]
    · rcases hx with hx | hx <;> exact absurd hx (by decide)
    · exact ⟨by omega, by omega, fun he => by have := he2 he; omega⟩

/-- Witness for the amended C4 at a concrete even-width desk. -/
theorem C4_chair_rect_amended_witness :
    (calc_chair_rect 10 20 700 600 "T").w = 700 ∧
    (calc_chair_rect 10 20 700 600 "T").y2 + CHAIR_DESK_GAP = 20 ∧
    2 * (calc_chair_rect 10 20 700 600 "T").x + 700 = 2 * 10 + 700 := by
  have h := C4_chair_rect_amended 10 20 700 600 "T" (Or.inl rfl)
  exact ⟨h.1.1, h.2.1 rfl, (h.2.2.2.2.2.1 (Or.inl rfl)).2.2 (by decide)⟩

/-- C3: when the candidate's ok field is false, `calculate_layout_score`
returns total exactly 0 and all eight sub-scores (and the stored total)
are zero, regardless of items, room size, weights, scorer functions,
doors and windows. -/
theorem C3_score_zero_when_not_ok (scorers : Scorers) (result : Candidate)
    (room_w room_d : Int) (weights : Weights) (doors : Option (List (Int × Int)))
    (windows : Option (List String)) (h : result.ok = false) :
    (calculate_layout_score scorers result room_w room_d weights doors windows).1 = 0 ∧
    (calculate_layout_score scorers result room_w room_d weights doors windows).2.seat_count = 0 ∧
    (calculate_layout_score scorers result room_w room_d weights doors windows).2.passage_width = 0 ∧
    (calculate_layout_score scorers result room_w room_d weights doors windows).2.natural_light = 0 ∧
    (calculate_layout_score scorers result room_w room_d weights doors windows).2.traffic_flow = 0 ∧
    (calculate_layout_score scorers result room_w room_d weights doors windows).2.face_to_face_bonus = 0 ∧
    (calculate_layout_score scorers result room_w room_d weights doors windows).2.space_efficiency = 0 ∧
    (calculate_layout_score scorers result room_w room_d weights doors windows).2.desk_spacing = 0 ∧
    (calculate_layout_score scorers result room_w room_d weights doors windows).2.area_per_person = 0 ∧
    (calculate_layout_score scorers result room_w room_d weights doors windows).2.total = 0 := by
  simp only [calculate_layout_score, h, if_pos rfl]
  exact ⟨rfl, rfl, rfl, rfl, rfl, rfl, rfl, rfl, rfl, rfl⟩

/-- Witness for C3 at a concrete failed candidate and concrete scorers. -/
theorem C3_score_zero_when_not_ok_witness :
    (f2f_fail 3 "t").ok = false ∧
    (calculate_layout_score
      ⟨fun _ _ _ => 1, fun _ _ _ => 1, fun _ _ _ _ => 1, fun _ _ _ _ => 1, fun _ => 1,
       fun _ _ _ => 1, fun _ _ _ => 1, fun _ _ _ => 1⟩
      (f2f_fail 3 "t") 5000 4000 (fun _ => none) none none).1 = 0 :=
  ⟨rfl, (C3_score_zero_when_not_ok _ (f2f_fail 3 "t") 5000 4000 (fun _ => none) none none
    rfl).1⟩

/-- C8: with its desk type in the catalog, the double-wall generator
always returns a structured result (never an exception) whose
seats_required echoes the input — infeasibility can only show up in the
`seats_placed`/`ok` fields of that result — and a desk-type id whose
depth suffix cannot be parsed falls back to the 600mm default depth
instead of failing. -/
theorem C8_no_raise_and_depth_fallback :
    (∀ (room_w room_d : Int) (furniture : Furniture) (ws_type : String)
        (seats_required : Int) (blocks : List Rect) (gap_y : Int)
        (door_tip : Option (Int × Int)) (radius : Int) (f : FurnSpec),
        furniture ws_type = some f →
        ∃ c, place_workstations_double_wall room_w room_d furniture ws_type seats_required
            blocks gap_y door_tip radius = some c ∧
          c.seats_required = seats_required ∧ c.pattern = "double_wall" ∧
          c.ws_type = ws_type) ∧
    (∀ s, parse_desk_depth_opt s = none → parse_desk_depth s = 600) ∧
    parse_desk_depth "ws_1200" = 600 ∧ parse_desk_depth "circle" = 600 ∧
    parse_desk_depth "ws_1000x700" = 700 := by
  refine ⟨?_, ?_, by decide, by decide, by decide⟩
  · intro room_w room_d furniture ws_type seats_required blocks gap_y door_tip radius f hf
    simp only [place_workstations_double_wall, ws_size, hf, Option.map_some']
    exact ⟨_, rfl, rfl, rfl, rfl⟩
  · intro s h
    simp only [parse_desk_depth, h, Option.getD_none, DEFAULT_DESK_DEPTH]

/-- Witness for C8 at a concrete catalog and room. -/
theorem C8_no_raise_and_depth_fallback_witness :
    furC7 "ws_1200x600" = some { w := 700, d := 1500 } ∧
    (∃ c, place_workstations_double_wall 4000 1400 furC7 "ws_1200x600" 1 [] 0 none 900 =
        some c ∧ c.seats_required = 1 ∧ c.pattern = "double_wall" ∧
        c.ws_type = "ws_1200x600") ∧
    parse_desk_depth_opt "ws_1200" = none ∧ parse_desk_depth "ws_1200" = 600 :=
  ⟨by decide,
   (C8_no_raise_and_depth_fallback.1 4000 1400 furC7 "ws_1200x600" 1 [] 0 none 900
     { w := 700, d := 1500 } (by decide)),
   by decide, (C8_no_raise_and_depth_fallback.2.1 "ws_1200" (by decide))⟩

/-- C1 refutation: with the catalog entry ws_600x600 ↦ {w := 600,
d := 1400} (unit shorter along the wall than the 700mm chair), the
double-wall generator returns an ok candidate in which two chair
rectangles intersect. -/
theorem C1_no_overlap_counterexample :
    resC1.map Candidate.ok = some true ∧
    resC1.map (fun c => (c.items.getD 1 dummyItem).ty) = some "chair" ∧
    resC1.map (fun c => (c.items.getD 5 dummyItem).ty) = some "chair" ∧
    resC1.map (fun c =>
      intersects (c.items.getD 1 dummyItem).rect (c.items.getD 5 dummyItem).rect) =
      some true := by decide

/-- C2 refutation: `place_workstations_mixed` can return ok = true while
the desk nearest to the door tip does NOT clear it by the required
radius (the claimed equivalence fails for the mixed generator, whose ok
omits the door-clearance conjunct). -/
theorem C2_ok_iff_counterexample :
    resC2.map Candidate.ok = some true ∧
    resC2.map (fun c => decide (c.seats_placed ≥ c.seats_required)) = some true ∧
    resC2.map (fun c => door_clearance_ok_for_items c.items (some (2200, 3550))) =
      some false := by decide

/-- C7 refutation: raising seats_required from 1 to 2 with everything
else fixed INCREASES the achievable seats_placed (1 to 2), contradicting
the claim that it never increases. -/
theorem C7_monotone_counterexample :
    (dwC7 1).map Candidate.seats_placed = some 1 ∧
    (dwC7 2).map Candidate.seats_placed = some 2 := by decide

/-- C5 refutation: for an empty equipment list the input candidate is
returned unchanged, WITHOUT the equipment_target/equipment_placed
fields — so equipment_target does not equal the length (0) of the
requested list. -/
theorem C5_equipment_fields_counterexample :
    place_equipment_along_wall baseC5 3000 3000 furC1 [] [] none 1225 200 100 "" none =
      some baseC5 ∧
    (place_equipment_along_wall baseC5 3000 3000 furC1 [] [] none 1225 200 100 "" none).map
      Candidate.equipment_target = some none ∧
    (place_equipment_along_wall baseC5 3000 3000 furC1 [] [] none 1225 200 100 "" none).map
      Candidate.equipment_placed = some none := by decide

/-- C2 amended: for the double-wall generator, ok is true exactly when
seats_placed reaches seats_required AND the desk nearest the door tip
clears it by the required radius; for the mixed generator, ok is true
exactly when seats_placed reaches seats_required (its ok omits the
door-clearance conjunct). -/
theorem C2_ok_iff_amended :
    (∀ (room_w room_d : Int) (furniture : Furniture) (ws_type : String)
        (seats_required : Int) (blocks : List Rect) (gap_y : Int)
        (door_tip : Option (Int × Int)) (radius : Int) (c : Candidate),
        place_workstations_double_wall room_w room_d furniture ws_type seats_required blocks
          gap_y door_tip radius = some c →
        (c.ok = true ↔ c.seats_required ≤ c.seats_placed ∧
          door_clearance_ok_for_items c.items door_tip = true)) ∧
    (∀ (room_w room_d : Int) (furniture : Furniture) (ws_type : String)
        (seats_required : Int) (blocks : List Rect) (wall_seats : Int) (wall_side : String)
        (door_tip : Option (Int × Int)) (radius : Int) (c : Candidate),
        place_workstations_mixed room_w room_d furniture ws_type seats_required blocks
          wall_seats wall_side door_tip radius = some c →
        (c.ok = true ↔ c.seats_required ≤ c.seats_placed)) := by
  constructor
  · intro room_w room_d furniture ws_type seats_required blocks gap_y door_tip radius c hc
    cases hfs : furniture ws_type with
    | none => simp [place_workstations_double_wall, ws_size, hfs] at hc
    | some f =>
      simp only [place_workstations_double_wall, ws_size, hfs, Option.map_some'] at hc
      cases Option.some.inj hc
      dsimp only
      simp only [Bool.and_eq_true, decide_eq_true_eq, ge_iff_le]
  · intro room_w room_d furniture ws_type seats_required blocks wall_seats wall_side
      door_tip radius c hc
    cases hfs : furniture ws_type with
    | none => simp [place_workstations_mixed, ws_size, hfs] at hc
    | some f =>
      simp only [place_workstations_mixed, ws_size, hfs, Option.map_some'] at hc
      cases Option.some.inj hc
      dsimp only [mixed_finish]
      simp only [decide_eq_true_eq, ge_iff_le]

/-- Witness for the amended C2 at concrete runs of both generators. -/
theorem C2_ok_iff_amended_witness :
    (cW1.ok = true ↔ cW1.seats_required ≤ cW1.seats_placed ∧
      door_clearance_ok_for_items cW1.items none = true) ∧
    (cWmixed.ok = true ↔ cWmixed.seats_required ≤ cWmixed.seats_placed) :=
  ⟨C2_ok_iff_amended.1 4000 1400 furC7 "ws_1200x600" 1 [] 0 none 900 cW1 (by decide),
   C2_ok_iff_amended.2 3000 3600 furC2 "ws_1200x600" 2 [] 0 "L" (some (2200, 3550)) 900
     cWmixed (by decide)⟩

/- ======================= item-count lemmas ======================= -/

theorem countTy_append (l1 l2 : List Item) (t : String) :
    countTy (l1 ++ l2) t = countTy l1 t + countTy l2 t := by
  simp [countTy, List.filter_append]

theorem counts_add_desk_and_chair (items : List Item) (lp ws : String)
    (dx dy dw dd : Int) (dir : String) (rot : Int) :
    countTy (add_desk_and_chair items lp ws dx dy dw dd dir rot) "desk" =
      countTy items "desk" + 1 ∧
    countTy (add_desk_and_chair items lp ws dx dy dw dd dir rot) "chair" =
      countTy items "chair" + 1 := by
  constructor <;> simp [add_desk_and_chair, countTy, List.filter_append, List.filter]

theorem counts_add_wall_desk_and_chair (items : List Item) (lp : String) (rs : Int)
    (ws wall : String) (p ua ud : Int) (ih : Bool) :
    countTy (add_wall_desk_and_chair items lp rs ws wall p ua ud ih) "desk" =
      countTy items "desk" + 1 ∧
    countTy (add_wall_desk_and_chair items lp rs ws wall p ua ud ih) "chair" =
      countTy items "chair" + 1 := by
  unfold add_wall_desk_and_chair
  split <;> split <;> exact counts_add_desk_and_chair ..

theorem counts_add_free_desk_and_chair (items : List Item) (lp ws : String)
    (x y dw ud : Int) (side : String) (ov : Option Int) :
    countTy (add_free_desk_and_chair items lp ws x y dw ud side ov) "desk" =
      countTy items "desk" + 1 ∧
    countTy (add_free_desk_and_chair items lp ws x y dw ud side ov) "chair" =
      countTy items "chair" + 1 := by
  unfold add_free_desk_and_chair
  exact counts_add_desk_and_chair ..

theorem counts_add_lr_desk_and_chair (items : List Item) (lp ws : String)
    (x y dw dd : Int) (side : String) (rot : Int) :
    countTy (add_lr_desk_and_chair items lp ws x y dw dd side rot) "desk" =
      countTy items "desk" + 1 ∧
    countTy (add_lr_desk_and_chair items lp ws x y dw dd side rot) "chair" =
      countTy items "chair" + 1 := by
  unfold add_lr_desk_and_chair
  exact counts_add_desk_and_chair ..

theorem dw_try_left_spec (room_w room_d : Int) (ws_type : String) (ws_w ws_d : Int)
    (door_tip : Option (Int × Int)) (radius : Int) (pb : List Rect) (r : Int)
    (s : SweepState) :
    dw_try_left room_w room_d ws_type ws_w ws_d door_tip radius pb r s = s ∨
    (s.seat_idx ≤ r ∧
     (dw_try_left room_w room_d ws_type ws_w ws_d door_tip radius pb r s).seat_idx =
       s.seat_idx + 1 ∧
     countTy (dw_try_left room_w room_d ws_type ws_w ws_d door_tip radius pb r s).items
       "desk" = countTy s.items "desk" + 1 ∧
     countTy (dw_try_left room_w room_d ws_type ws_w ws_d door_tip radius pb r s).items
       "chair" = countTy s.items "chair" + 1) := by
  unfold dw_try_left
  dsimp only
  split
  case isTrue h =>
    simp only [Bool.and_eq_true, decide_eq_true_eq] at h
    refine Or.inr ⟨h.2, rfl, ?_, ?_⟩
    · exact (counts_add_wall_desk_and_chair s.items ("WS" ++ toString s.seat_idx) room_w
        ws_type "L" s.pos ws_w ws_d false).1
    · exact (counts_add_wall_desk_and_chair s.items ("WS" ++ toString s.seat_idx) room_w
        ws_type "L" s.pos ws_w ws_d false).2
  case isFalse h => exact Or.inl rfl

theorem dw_try_right_spec (room_w room_d : Int) (ws_type : String) (ws_w ws_d : Int)
    (door_tip : Option (Int × Int)) (radius : Int) (pb : List Rect) (r : Int)
    (s : SweepState) :
    dw_try_right room_w room_d ws_type ws_w ws_d door_tip radius pb r s = s ∨
    (s.seat_idx ≤ r ∧
     (dw_try_right room_w room_d ws_type ws_w ws_d door_tip radius pb r s).seat_idx =
       s.seat_idx + 1 ∧
     countTy (dw_try_right room_w room_d ws_type ws_w ws_d door_tip radius pb r s).items
       "desk" = countTy s.items "desk" + 1 ∧
     countTy (dw_try_right room_w room_d ws_type ws_w ws_d door_tip radius pb r s).items
       "chair" = countTy s.items "chair" + 1) := by
  unfold dw_try_right
  dsimp only
  split
  case isTrue h =>
    simp only [Bool.and_eq_true, decide_eq_true_eq] at h
    refine Or.inr ⟨h.2, rfl, ?_, ?_⟩
    · exact (counts_add_wall_desk_and_chair s.items ("WS" ++ toString s.seat_idx) room_w
        ws_type "R" s.pos ws_w ws_d false).1
    · exact (counts_add_wall_desk_and_chair s.items ("WS" ++ toString s.seat_idx) room_w
        ws_type "R" s.pos ws_w ws_d false).2
  case isFalse h => exact Or.inl rfl

theorem dw_loop_counts (room_w room_d : Int) (ws_type : String) (ws_w ws_d gap_y : Int)
    (door_tip : Option (Int × Int)) (radius : Int) (pb : List Rect) (r : Int) :
    ∀ (fuel : Nat) (s : SweepState),
      (countTy s.items "desk" : Int) = s.seat_idx - 1 →
      (countTy s.items "chair" : Int) = s.seat_idx - 1 →
      s.seat_idx ≤ r + 1 →
      ((countTy (dw_loop room_w room_d ws_type ws_w ws_d gap_y door_tip radius pb r fuel
          s).items "desk" : Int) =
        (dw_loop room_w room_d ws_type ws_w ws_d gap_y door_tip radius pb r fuel
          s).seat_idx - 1 ∧
       (countTy (dw_loop room_w room_d ws_type ws_w ws_d gap_y door_tip radius pb r fuel
          s).items "chair" : Int) =
        (dw_loop room_w room_d ws_type ws_w ws_d gap_y door_tip radius pb r fuel
          s).seat_idx - 1 ∧
       (dw_loop room_w room_d ws_type ws_w ws_d gap_y door_tip radius pb r fuel
          s).seat_idx ≤ r + 1) := by
  intro fuel
  induction fuel with
  | zero => exact fun s h1 h2 h3 => ⟨h1, h2, h3⟩
  | succ n ih =>
    intro s h1 h2 h3
    rw [dw_loop]
    split
    case isTrue hcond =>
      have hd1 : (countTy (dw_try_left room_w room_d ws_type ws_w ws_d door_tip radius pb r
            s).items "desk" : Int) =
          (dw_try_left room_w room_d ws_type ws_w ws_d door_tip radius pb r s).seat_idx - 1 ∧
          (countTy (dw_try_left room_w room_d ws_type ws_w ws_d door_tip radius pb r
            s).items "chair" : Int) =
          (dw_try_left room_w room_d ws_type ws_w ws_d door_tip radius pb r s).seat_idx - 1 ∧
          (dw_try_left room_w room_d ws_type ws_w ws_d door_tip radius pb r s).seat_idx ≤
            r + 1 := by
        rcases dw_try_left_spec room_w room_d ws_type ws_w ws_d door_tip radius pb r s with
          he | ⟨hle, hseat, hcd, hcc⟩
        · rw [he]; exact ⟨h1, h2, h3⟩
        · rw [hseat, hcd, hcc]
          push_cast at h1 h2 ⊢
          omega
      have hd2 : (countTy (dw_try_right room_w room_d ws_type ws_w ws_d door_tip radius pb r
            (dw_try_left room_w room_d ws_type ws_w ws_d door_tip radius pb r s)).items
            "desk" : Int) =
          (dw_try_right room_w room_d ws_type ws_w ws_d door_tip radius pb r
            (dw_try_left room_w room_d ws_type ws_w ws_d door_tip radius pb r
              s)).seat_idx - 1 ∧
          (countTy (dw_try_right room_w room_d ws_type ws_w ws_d door_tip radius pb r
            (dw_try_left room_w room_d ws_type ws_w ws_d door_tip radius pb r s)).items
            "chair" : Int) =
          (dw_try_right room_w room_d ws_type ws_w ws_d door_tip radius pb r
            (dw_try_left room_w room_d ws_type ws_w ws_d door_tip radius pb r
              s)).seat_idx - 1 ∧
          (dw_try_right room_w room_d ws_type ws_w ws_d door_tip radius pb r
            (dw_try_left room_w room_d ws_type ws_w ws_d door_tip radius pb r
              s)).seat_idx ≤ r + 1 := by
        obtain ⟨e1, e2, e3⟩ := hd1
        rcases dw_try_right_spec room_w room_d ws_type ws_w ws_d door_tip radius pb r
            (dw_try_left room_w room_d ws_type ws_w ws_d door_tip radius pb r s) with
          he | ⟨hle, hseat, hcd, hcc⟩
        · rw [he]; exact ⟨e1, e2, e3⟩
        · rw [hseat, hcd, hcc]
          push_cast at e1 e2 ⊢
          omega
      exact ih _ hd2.1 hd2.2.1 hd2.2.2
    case isFalse hcond => exact ⟨h1, h2, h3⟩

theorem sw_try_spec (room_w room_d : Int) (ws_type wall_side : String) (x : Int)
    (ws_w ws_d : Int) (door_tip : Option (Int × Int)) (radius : Int) (pb : List Rect)
    (s : SweepState) :
    sw_try room_w room_d ws_type wall_side x ws_w ws_d door_tip radius pb s = s ∨
    ((sw_try room_w room_d ws_type wall_side x ws_w ws_d door_tip radius pb s).seat_idx =
       s.seat_idx + 1 ∧
     countTy (sw_try room_w room_d ws_type wall_side x ws_w ws_d door_tip radius pb
       s).items "desk" = countTy s.items "desk" + 1 ∧
     countTy (sw_try room_w room_d ws_type wall_side x ws_w ws_d door_tip radius pb
       s).items "chair" = countTy s.items "chair" + 1) := by
  unfold sw_try
  dsimp only
  split
  case isTrue h =>
    refine Or.inr ⟨rfl, ?_, ?_⟩
    · exact (counts_add_wall_desk_and_chair s.items ("WS" ++ toString s.seat_idx) room_w
        ws_type wall_side s.pos ws_w ws_d false).1
    · exact (counts_add_wall_desk_and_chair s.items ("WS" ++ toString s.seat_idx) room_w
        ws_type wall_side s.pos ws_w ws_d false).2
  case isFalse h => exact Or.inl rfl

theorem sw_loop_counts (room_w room_d : Int) (ws_type wall_side : String) (x : Int)
    (ws_w ws_d gap_y : Int) (door_tip : Option (Int × Int)) (radius : Int) (pb : List Rect)
    (r : Int) :
    ∀ (fuel : Nat) (s : SweepState),
      (countTy s.items "desk" : Int) = s.seat_idx - 1 →
      (countTy s.items "chair" : Int) = s.seat_idx - 1 →
      s.seat_idx ≤ r + 1 →
      ((countTy (sw_loop room_w room_d ws_type wall_side x ws_w ws_d gap_y door_tip radius
          pb r fuel s).items "desk" : Int) =
        (sw_loop room_w room_d ws_type wall_side x ws_w ws_d gap_y door_tip radius pb r
          fuel s).seat_idx - 1 ∧
       (countTy (sw_loop room_w room_d ws_type wall_side x ws_w ws_d gap_y door_tip radius
          pb r fuel s).items "chair" : Int) =
        (sw_loop room_w room_d ws_type wall_side x ws_w ws_d gap_y door_tip radius pb r
          fuel s).seat_idx - 1 ∧
       (sw_loop room_w room_d ws_type wall_side x ws_w ws_d gap_y door_tip radius pb r
          fuel s).seat_idx ≤ r + 1) := by
  intro fuel
  induction fuel with
  | zero => exact fun s h1 h2 h3 => ⟨h1, h2, h3⟩
  | succ n ih =>
    intro s h1 h2 h3
    rw [sw_loop]
    split
    case isTrue hcond =>
      have hd1 : (countTy (sw_try room_w room_d ws_type wall_side x ws_w ws_d door_tip
            radius pb s).items "desk" : Int) =
          (sw_try room_w room_d ws_type wall_side x ws_w ws_d door_tip radius pb
            s).seat_idx - 1 ∧
          (countTy (sw_try room_w room_d ws_type wall_side x ws_w ws_d door_tip radius pb
            s).items "chair" : Int) =
          (sw_try room_w room_d ws_type wall_side x ws_w ws_d door_tip radius pb
            s).seat_idx - 1 ∧
          (sw_try room_w room_d ws_type wall_side x ws_w ws_d door_tip radius pb
            s).seat_idx ≤ r + 1 := by
        rcases sw_try_spec room_w room_d ws_type wall_side x ws_w ws_d door_tip radius pb s
          with he | ⟨hseat, hcd, hcc⟩
        · rw [he]; exact ⟨h1, h2, h3⟩
        · rw [hseat, hcd, hcc]
          push_cast at h1 h2 ⊢
          constructor
          · omega
          · constructor
            · omega
            · exact Int.add_le_add_right hcond.2 1
      exact ih _ hd1.1 hd1.2.1 hd1.2.2
    case isFalse hcond => exact ⟨h1, h2, h3⟩

theorem f2f_add_pair_spec (ws_type : String) (ws_w desk_depth seats_target x center_line :
    Int) (items : List Item) (seat_idx : Int) :
    (countTy (f2f_add_pair ws_type ws_w desk_depth seats_target x center_line items
       seat_idx).1 "desk" : Int) =
      countTy items "desk" +
        ((f2f_add_pair ws_type ws_w desk_depth seats_target x center_line items
          seat_idx).2 - seat_idx) ∧
    (countTy (f2f_add_pair ws_type ws_w desk_depth seats_target x center_line items
       seat_idx).1 "chair" : Int) =
      countTy items "chair" +
        ((f2f_add_pair ws_type ws_w desk_depth seats_target x center_line items
          seat_idx).2 - seat_idx) ∧
    seat_idx ≤ (f2f_add_pair ws_type ws_w desk_depth seats_target x center_line items
      seat_idx).2 ∧
    (seat_idx ≤ seats_target + 1 →
      (f2f_add_pair ws_type ws_w desk_depth seats_target x center_line items seat_idx).2 ≤
        seats_target + 1) := by
  unfold f2f_add_pair
  dsimp only
  split
  case isTrue h1 =>
    have c1 := counts_add_free_desk_and_chair items ("WS" ++ toString seat_idx) ws_type x
      (center_line - desk_depth) ws_w desk_depth "up" (some desk_depth)
    split
    case isTrue h2 =>
      have c2 := counts_add_free_desk_and_chair
        (add_free_desk_and_chair items ("WS" ++ toString seat_idx) ws_type x
          (center_line - desk_depth) ws_w desk_depth "up" (some desk_depth))
        ("WS" ++ toString (seat_idx + 1)) ws_type x center_line ws_w desk_depth "down"
        (some desk_depth)
      dsimp only at h2 ⊢
      rw [c2.1, c2.2, c1.1, c1.2]
      push_cast
      omega
    case isFalse h2 =>
      dsimp only at h2 ⊢
      rw [c1.1, c1.2]
      push_cast
      omega
  case isFalse h1 =>
    dsimp only
    omega

theorem f2f_pair_loop_counts (room_w room_d : Int) (ws_type : String)
    (ws_w desk_depth unit_w_x unit_d_y gap_x y0 center_line seats_target : Int)
    (door_tip : Option (Int × Int)) (total_units : Int) :
    ∀ (fuel : Nat) (s : F2fState),
      (countTy s.items "desk" : Int) = s.seat_idx - 1 →
      (countTy s.items "chair" : Int) = s.seat_idx - 1 →
      s.seat_idx ≤ seats_target + 1 →
      ((countTy (f2f_pair_loop room_w room_d ws_type ws_w desk_depth unit_w_x unit_d_y
          gap_x y0 center_line seats_target door_tip total_units fuel s).items "desk" :
          Int) =
        (f2f_pair_loop room_w room_d ws_type ws_w desk_depth unit_w_x unit_d_y gap_x y0
          center_line seats_target door_tip total_units fuel s).seat_idx - 1 ∧
       (countTy (f2f_pair_loop room_w room_d ws_type ws_w desk_depth unit_w_x unit_d_y
          gap_x y0 center_line seats_target door_tip total_units fuel s).items "chair" :
          Int) =
        (f2f_pair_loop room_w room_d ws_type ws_w desk_depth unit_w_x unit_d_y gap_x y0
          center_line seats_target door_tip total_units fuel s).seat_idx - 1 ∧
       (f2f_pair_loop room_w room_d ws_type ws_w desk_depth unit_w_x unit_d_y gap_x y0
          center_line seats_target door_tip total_units fuel s).seat_idx ≤
         seats_target + 1) := by
  intro fuel
  induction fuel with
  | zero => exact fun s h1 h2 h3 => ⟨h1, h2, h3⟩
  | succ n ih =>
    intro s h1 h2 h3
    rw [f2f_pair_loop]
    split
    case isTrue hcond =>
      dsimp only
      split
      case isTrue hacc =>
        have hp := f2f_add_pair_spec ws_type ws_w desk_depth seats_target s.x center_line
          s.items s.seat_idx
        refine ih _ ?_ ?_ ?_
        · dsimp only
          rw [hp.1]
          omega
        · dsimp only
          rw [hp.2.1]
          omega
        · exact hp.2.2.2 h3
      case isFalse hacc => exact ih _ h1 h2 h3
    case isFalse hcond => exact ⟨h1, h2, h3⟩

theorem f2f_single_attempt_counts (room_w room_d : Int) (ws_type : String)
    (placed : List Rect) (door_tip : Option (Int × Int)) (items : List Item)
    (seat_idx : Int) (side : String) (u : Rect) (items2 : List Item)
    (h : f2f_single_attempt room_w room_d ws_type placed door_tip items seat_idx side u =
      some items2) :
    countTy items2 "desk" = countTy items "desk" + 1 ∧
    countTy items2 "chair" = countTy items "chair" + 1 := by
  unfold f2f_single_attempt at h
  dsimp only at h
  split at h
  · exact absurd h (by simp)
  · split at h
    · exact absurd h (by simp)
    · cases Option.some.inj h
      constructor
      · exact (counts_add_lr_desk_and_chair ..).1
      · exact (counts_add_lr_desk_and_chair ..).2

theorem f2f_single_loop_counts (room_w room_d : Int) (ws_type : String)
    (placed : List Rect) (door_tip : Option (Int × Int)) (items : List Item)
    (seat_idx : Int) :
    ∀ (cands : List (String × Rect)) (items2 : List Item),
      f2f_single_loop room_w room_d ws_type placed door_tip items seat_idx cands =
        some items2 →
      countTy items2 "desk" = countTy items "desk" + 1 ∧
      countTy items2 "chair" = countTy items "chair" + 1 := by
  intro cands
  induction cands with
  | nil => intro items2 h; exact absurd h (by simp [f2f_single_loop])
  | cons hd tl ih =>
    intro items2 h
    obtain ⟨side, u⟩ := hd
    rw [f2f_single_loop] at h
    split at h
    case h_1 heq =>
      cases Option.some.inj h
      exact f2f_single_attempt_counts room_w room_d ws_type placed door_tip items seat_idx
        side u _ heq
    case h_2 heq => exact ih items2 h

theorem f2f_append_dims_counts (room_w room_d center_line desk_depth : Int)
    (items2 : List Item) :
    countTy (f2f_append_dims room_w room_d center_line desk_depth items2) "desk" =
      countTy items2 "desk" ∧
    countTy (f2f_append_dims room_w room_d center_line desk_depth items2) "chair" =
      countTy items2 "chair" := by
  unfold f2f_append_dims
  dsimp only
  split
  · constructor <;> simp [countTy_append, countTy, List.filter]
  · exact ⟨rfl, rfl⟩

theorem f2f_finish_counts (room_w room_d : Int) (ws_type : String) (seats_required : Int)
    (center_line desk_depth : Int) (door_side_u : String) (door_tip : Option (Int × Int))
    (s : F2fState)
    (h1 : (countTy s.items "desk" : Int) = s.seat_idx - 1)
    (h2 : (countTy s.items "chair" : Int) = s.seat_idx - 1)
    (h3 : s.seat_idx ≤ seats_required + 1) :
    (countTy (f2f_finish room_w room_d ws_type seats_required center_line desk_depth
       door_side_u door_tip s).items "desk" : Int) =
      (f2f_finish room_w room_d ws_type seats_required center_line desk_depth door_side_u
        door_tip s).seats_placed ∧
    (countTy (f2f_finish room_w room_d ws_type seats_required center_line desk_depth
       door_side_u door_tip s).items "chair" : Int) =
      (f2f_finish room_w room_d ws_type seats_required center_line desk_depth door_side_u
        door_tip s).seats_placed ∧
    (f2f_finish room_w room_d ws_type seats_required center_line desk_depth door_side_u
      door_tip s).seats_placed ≤
      (f2f_finish room_w room_d ws_type seats_required center_line desk_depth door_side_u
        door_tip s).seats_required := by
  unfold f2f_finish
  dsimp only
  split
  case h_1 heq =>
    dsimp only
    split at heq
    case isTrue hsing =>
      split at heq
      case h_1 hloop => exact absurd heq (by simp)
      case h_2 hloop => exact ⟨h1, h2, by omega⟩
    case isFalse hsing => exact absurd heq (by simp)
  case h_2 seat2 items2 heq =>
    dsimp only
    have hd := (f2f_append_dims_counts room_w room_d center_line desk_depth items2).1
    have hc := (f2f_append_dims_counts room_w room_d center_line desk_depth items2).2
    rw [hd, hc]
    split at heq
    case isTrue hsing =>
      split at heq
      case h_1 =>
        rename_i xopt items2x hloop
        cases Option.some.inj heq
        have hcnt := f2f_single_loop_counts room_w room_d ws_type s.placed door_tip
          s.items s.seat_idx _ _ hloop
        rw [hcnt.1, hcnt.2]
        push_cast at h1 h2 ⊢
        refine ⟨by omega, by omega, by omega⟩
      case h_2 hloop => exact absurd heq (by simp)
    case isFalse hsing =>
      cases Option.some.inj heq
      exact ⟨h1, h2, by omega⟩

/-- C10: the double-wall, single-wall and face-to-face-center generators
return seats_placed ≤ seats_required (for a non-negative requirement),
and their item list contains exactly seats_placed desks and exactly
seats_placed chairs. -/
theorem C10_seat_and_item_counts :
    (∀ (room_w room_d : Int) (furniture : Furniture) (ws_type : String)
        (seats_required : Int) (blocks : List Rect) (gap_y : Int)
        (door_tip : Option (Int × Int)) (radius : Int) (c : Candidate),
        place_workstations_double_wall room_w room_d furniture ws_type seats_required
          blocks gap_y door_tip radius = some c →
        0 ≤ seats_required →
        (countTy c.items "desk" : Int) = c.seats_placed ∧
        (countTy c.items "chair" : Int) = c.seats_placed ∧
        c.seats_placed ≤ c.seats_required) ∧
    (∀ (room_w room_d : Int) (furniture : Furniture) (ws_type : String)
        (seats_required : Int) (blocks : List Rect) (side : String) (gap_y : Int)
        (door_tip : Option (Int × Int)) (radius : Int) (c : Candidate),
        place_workstations_single_wall room_w room_d furniture ws_type seats_required
          blocks side gap_y door_tip radius = some c →
        0 ≤ seats_required →
        (countTy c.items "desk" : Int) = c.seats_placed ∧
        (countTy c.items "chair" : Int) = c.seats_placed ∧
        c.seats_placed ≤ c.seats_required) ∧
    (∀ (room_w room_d : Int) (furniture : Furniture) (ws_type : String)
        (seats_required : Int) (blocks : List Rect) (gap_x : Int) (door_side : String)
        (door_rect : Option Rect) (door_tip : Option (Int × Int)) (c : Candidate),
        place_workstations_face_to_face_center room_w room_d furniture ws_type
          seats_required blocks gap_x door_side door_rect door_tip = some c →
        0 ≤ seats_required →
        (countTy c.items "desk" : Int) = c.seats_placed ∧
        (countTy c.items "chair" : Int) = c.seats_placed ∧
        c.seats_placed ≤ c.seats_required) := by
  refine ⟨?_, ?_, ?_⟩
  · intro room_w room_d furniture ws_type seats_required blocks gap_y door_tip radius c
      hc hr
    cases hfs : furniture ws_type with
    | none => simp [place_workstations_double_wall, ws_size, hfs] at hc
    | some f =>
      simp only [place_workstations_double_wall, ws_size, hfs, Option.map_some'] at hc
      cases Option.some.inj hc
      dsimp only
      obtain ⟨ha, hb, hs⟩ := dw_loop_counts room_w room_d ws_type f.w f.d gap_y door_tip
        radius blocks seats_required (dw_fuel room_d)
        { pos := 0, seat_idx := 1, placed := blocks, items := [] }
        (by simp [countTy]) (by simp [countTy]) (by dsimp only; omega)
      exact ⟨ha, hb, by omega⟩
  · intro room_w room_d furniture ws_type seats_required blocks side gap_y door_tip radius
      c hc hr
    cases hfs : furniture ws_type with
    | none => simp [place_workstations_single_wall, ws_size, hfs] at hc
    | some f =>
      simp only [place_workstations_single_wall, ws_size, hfs, Option.map_some'] at hc
      cases Option.some.inj hc
      dsimp only
      obtain ⟨ha, hb, hs⟩ := sw_loop_counts room_w room_d ws_type
        (if side = "L" then "L" else "R") (if side = "L" then 0 else room_w - f.d) f.w f.d
        gap_y door_tip radius blocks seats_required (dw_fuel room_d)
        { pos := 0, seat_idx := 1, placed := blocks, items := [] }
        (by simp [countTy]) (by simp [countTy]) (by dsimp only; omega)
      exact ⟨ha, hb, by omega⟩
  · intro room_w room_d furniture ws_type seats_required blocks gap_x door_side door_rect
      door_tip c hc hr
    cases hfs : furniture ws_type with
    | none => simp [place_workstations_face_to_face_center, ws_size, hfs] at hc
    | some f =>
      rw [place_workstations_face_to_face_center] at hc
      simp only [ws_size, hfs, Option.map_some'] at hc
      split at hc
      · cases Option.some.inj hc
        exact ⟨rfl, rfl, hr⟩
      · split at hc
        · cases Option.some.inj hc
          exact ⟨rfl, rfl, hr⟩
        · split at hc
          · cases Option.some.inj hc
            exact ⟨rfl, rfl, hr⟩
          · cases Option.some.inj hc
            refine f2f_finish_counts _ _ _ _ _ _ _ _ _ ?_ ?_ ?_
            · refine (f2f_pair_loop_counts _ _ _ _ _ _ _ _ _ _ _ _ _ _ _ ?_ ?_ ?_).1
              · simp [countTy]
              · simp [countTy]
              · dsimp only
                omega
            · refine (f2f_pair_loop_counts _ _ _ _ _ _ _ _ _ _ _ _ _ _ _ ?_ ?_ ?_).2.1
              · simp [countTy]
              · simp [countTy]
              · dsimp only
                omega
            · refine (f2f_pair_loop_counts _ _ _ _ _ _ _ _ _ _ _ _ _ _ _ ?_ ?_ ?_).2.2
              · simp [countTy]
              · simp [countTy]
              · dsimp only
                omega

/-- Witness for C10 at concrete double-wall and face-to-face runs. -/
theorem C10_seat_and_item_counts_witness :
    ((countTy cW2.items "desk" : Int) = cW2.seats_placed ∧
     (countTy cW2.items "chair" : Int) = cW2.seats_placed ∧
     cW2.seats_placed ≤ cW2.seats_required) :=
  C10_seat_and_item_counts.1 4000 1400 furC7 "ws_1200x600" 2 [] 0 none 900 cW2 (by decide)
    (by decide)

/- ======================= seat-monotonicity lemmas (double wall) ======================= -/

theorem dw_try_left_seat_bounds (room_w room_d : Int) (ws_type : String) (ws_w ws_d : Int)
    (door_tip : Option (Int × Int)) (radius : Int) (pb : List Rect) (r : Int)
    (s : SweepState) :
    s.seat_idx ≤ (dw_try_left room_w room_d ws_type ws_w ws_d door_tip radius pb r
      s).seat_idx ∧
    (dw_try_left room_w room_d ws_type ws_w ws_d door_tip radius pb r s).seat_idx ≤
      s.seat_idx + 1 := by
  unfold dw_try_left
  dsimp only
  split
  · dsimp only
    omega
  · omega

theorem dw_try_right_seat_bounds (room_w room_d : Int) (ws_type : String) (ws_w ws_d : Int)
    (door_tip : Option (Int × Int)) (radius : Int) (pb : List Rect) (r : Int)
    (s : SweepState) :
    s.seat_idx ≤ (dw_try_right room_w room_d ws_type ws_w ws_d door_tip radius pb r
      s).seat_idx ∧
    (dw_try_right room_w room_d ws_type ws_w ws_d door_tip radius pb r s).seat_idx ≤
      s.seat_idx + 1 := by
  unfold dw_try_right
  dsimp only
  split
  · dsimp only
    omega
  · omega

theorem dw_try_left_congr (room_w room_d : Int) (ws_type : String) (ws_w ws_d : Int)
    (door_tip : Option (Int × Int)) (radius : Int) (pb : List Rect) (r r' : Int)
    (s : SweepState) (h : s.seat_idx ≤ r) (h' : s.seat_idx ≤ r') :
    dw_try_left room_w room_d ws_type ws_w ws_d door_tip radius pb r s =
      dw_try_left room_w room_d ws_type ws_w ws_d door_tip radius pb r' s := by
  unfold dw_try_left
  dsimp only
  rw [decide_eq_true h, decide_eq_true h']

theorem dw_try_right_congr (room_w room_d : Int) (ws_type : String) (ws_w ws_d : Int)
    (door_tip : Option (Int × Int)) (radius : Int) (pb : List Rect) (r r' : Int)
    (s : SweepState) (h : s.seat_idx ≤ r) (h' : s.seat_idx ≤ r') :
    dw_try_right room_w room_d ws_type ws_w ws_d door_tip radius pb r s =
      dw_try_right room_w room_d ws_type ws_w ws_d door_tip radius pb r' s := by
  unfold dw_try_right
  dsimp only
  rw [decide_eq_true h, decide_eq_true h']

theorem dw_try_right_guard_false (room_w room_d : Int) (ws_type : String) (ws_w ws_d : Int)
    (door_tip : Option (Int × Int)) (radius : Int) (pb : List Rect) (r : Int)
    (s : SweepState) (h : ¬ s.seat_idx ≤ r) :
    dw_try_right room_w room_d ws_type ws_w ws_d door_tip radius pb r s = s := by
  unfold dw_try_right
  dsimp only
  rw [decide_eq_false h]
  simp

theorem dw_loop_seat_le (room_w room_d : Int) (ws_type : String) (ws_w ws_d gap_y : Int)
    (door_tip : Option (Int × Int)) (radius : Int) (pb : List Rect) (r : Int) :
    ∀ (fuel : Nat) (s : SweepState),
      s.seat_idx ≤
        (dw_loop room_w room_d ws_type ws_w ws_d gap_y door_tip radius pb r fuel
          s).seat_idx := by
  intro fuel
  induction fuel with
  | zero => intro s; exact le_refl _
  | succ n ih =>
    intro s
    rw [dw_loop]
    split
    case isTrue h =>
      have t1 := (dw_try_left_seat_bounds room_w room_d ws_type ws_w ws_d door_tip radius
        pb r s).1
      have t2 := (dw_try_right_seat_bounds room_w room_d ws_type ws_w ws_d door_tip radius
        pb r (dw_try_left room_w room_d ws_type ws_w ws_d door_tip radius pb r s)).1
      exact le_trans (le_trans t1 t2) (ih _)
    case isFalse h => exact le_refl _

theorem dw_loop_stop (room_w room_d : Int) (ws_type : String) (ws_w ws_d gap_y : Int)
    (door_tip : Option (Int × Int)) (radius : Int) (pb : List Rect) (r : Int) (fuel : Nat)
    (s : SweepState) (h : r < s.seat_idx) :
    dw_loop room_w room_d ws_type ws_w ws_d gap_y door_tip radius pb r fuel s = s := by
  cases fuel with
  | zero => rfl
  | succ n =>
    rw [dw_loop]
    rw [if_neg]
    intro hc
    exact absurd hc.2 (by omega)

theorem dw_loop_mono (room_w room_d : Int) (ws_type : String) (ws_w ws_d gap_y : Int)
    (door_tip : Option (Int × Int)) (radius : Int) (pb : List Rect) (r r' : Int)
    (hrr : r ≤ r') :
    ∀ (fuel : Nat) (s : SweepState),
      (dw_loop room_w room_d ws_type ws_w ws_d gap_y door_tip radius pb r fuel
        s).seat_idx ≤
      (dw_loop room_w room_d ws_type ws_w ws_d gap_y door_tip radius pb r' fuel
        s).seat_idx := by
  intro fuel
  induction fuel with
  | zero => intro s; exact le_refl _
  | succ n ih =>
    intro s
    by_cases hcnd : s.pos ≤ room_d - ws_w ∧ s.seat_idx ≤ r
    · have hcnd' : s.pos ≤ room_d - ws_w ∧ s.seat_idx ≤ r' := ⟨hcnd.1, hcnd.2.trans hrr⟩
      rw [dw_loop, dw_loop, if_pos hcnd, if_pos hcnd']
      dsimp only
      have hcongL := dw_try_left_congr room_w room_d ws_type ws_w ws_d door_tip radius pb
        r r' s hcnd.2 hcnd'.2
      rw [← hcongL]
      by_cases hs2 : (dw_try_left room_w room_d ws_type ws_w ws_d door_tip radius pb r
          s).seat_idx ≤ r
      · have hcongR := dw_try_right_congr room_w room_d ws_type ws_w ws_d door_tip radius
          pb r r' (dw_try_left room_w room_d ws_type ws_w ws_d door_tip radius pb r s) hs2
          (hs2.trans hrr)
        rw [← hcongR]
        exact ih _
      · have tl := dw_try_left_seat_bounds room_w room_d ws_type ws_w ws_d door_tip radius
          pb r s
        have hXr : (dw_try_left room_w room_d ws_type ws_w ws_d door_tip radius pb r
            s).seat_idx = r + 1 := by omega
        have hRr := dw_try_right_guard_false room_w room_d ws_type ws_w ws_d door_tip
          radius pb r (dw_try_left room_w room_d ws_type ws_w ws_d door_tip radius pb r s)
          hs2
        rw [hRr]
        have hstop := dw_loop_stop room_w room_d ws_type ws_w ws_d gap_y door_tip radius
          pb r n
          { dw_try_left room_w room_d ws_type ws_w ws_d door_tip radius pb r s with
            pos := (dw_try_left room_w room_d ws_type ws_w ws_d door_tip radius pb r
              s).pos + ws_w + gap_y }
          (by dsimp only; omega)
        rw [hstop]
        have tr := (dw_try_right_seat_bounds room_w room_d ws_type ws_w ws_d door_tip
          radius pb r' (dw_try_left room_w room_d ws_type ws_w ws_d door_tip radius pb r
            s)).1
        have ta := dw_loop_seat_le room_w room_d ws_type ws_w ws_d gap_y door_tip radius
          pb r' n
          { dw_try_right room_w room_d ws_type ws_w ws_d door_tip radius pb r'
              (dw_try_left room_w room_d ws_type ws_w ws_d door_tip radius pb r s) with
            pos := (dw_try_right room_w room_d ws_type ws_w ws_d door_tip radius pb r'
              (dw_try_left room_w room_d ws_type ws_w ws_d door_tip radius pb r
                s)).pos + ws_w + gap_y }
        dsimp only at ta ⊢
        omega
    · have hLHS : dw_loop room_w room_d ws_type ws_w ws_d gap_y door_tip radius pb r
          (n + 1) s = s := by
        rw [dw_loop, if_neg hcnd]
      rw [hLHS]
      exact dw_loop_seat_le room_w room_d ws_type ws_w ws_d gap_y door_tip radius pb r'
        (n + 1) s

theorem dw_loop_guard_free (room_w room_d : Int) (ws_type : String) (ws_w ws_d gap_y : Int)
    (door_tip : Option (Int × Int)) (radius : Int) (pb : List Rect) (r r' : Int) :
    ∀ (fuel : Nat) (s : SweepState),
      s.seat_idx + 2 * (fuel : Int) ≤ r → s.seat_idx + 2 * (fuel : Int) ≤ r' →
      dw_loop room_w room_d ws_type ws_w ws_d gap_y door_tip radius pb r fuel s =
        dw_loop room_w room_d ws_type ws_w ws_d gap_y door_tip radius pb r' fuel s := by
  intro fuel
  induction fuel with
  | zero => intro s _ _; rfl
  | succ n ih =>
    intro s hb hb'
    by_cases hy : s.pos ≤ room_d - ws_w
    · have hs : s.seat_idx ≤ r := by push_cast at hb; omega
      have hs' : s.seat_idx ≤ r' := by push_cast at hb'; omega
      rw [dw_loop, dw_loop, if_pos ⟨hy, hs⟩, if_pos ⟨hy, hs'⟩]
      have hcongL := dw_try_left_congr room_w room_d ws_type ws_w ws_d door_tip radius pb
        r r' s hs hs'
      have tl := dw_try_left_seat_bounds room_w room_d ws_type ws_w ws_d door_tip radius
        pb r s
      have hs2 : (dw_try_left room_w room_d ws_type ws_w ws_d door_tip radius pb r
          s).seat_idx ≤ r := by push_cast at hb; omega
      have hs2' : (dw_try_left room_w room_d ws_type ws_w ws_d door_tip radius pb r
          s).seat_idx ≤ r' := by push_cast at hb'; omega
      have hcongR := dw_try_right_congr room_w room_d ws_type ws_w ws_d door_tip radius pb
        r r' (dw_try_left room_w room_d ws_type ws_w ws_d door_tip radius pb r s) hs2 hs2'
      dsimp only
      rw [← hcongL, ← hcongR]
      have tr := dw_try_right_seat_bounds room_w room_d ws_type ws_w ws_d door_tip radius
        pb r (dw_try_left room_w room_d ws_type ws_w ws_d door_tip radius pb r s)
      refine ih _ ?_ ?_ <;> dsimp only <;> push_cast at hb hb' ⊢ <;> omega
    · rw [dw_loop, dw_loop, if_neg (fun hc => hy hc.1), if_neg (fun hc => hy hc.1)]

/-- C7 (amended): for the double-wall generator with fixed room, catalog,
desk type, blocks and door data, `seats_placed` is monotone
NON-DECREASING in `seats_required` (not non-increasing as claimed); `ok`
is false whenever the placed count falls short of the requirement;
`seats_placed` never exceeds the pattern capacity of the room; and `ok`
is false once `seats_required` exceeds that capacity. -/
theorem C7_seats_monotone_amended (room_w room_d : Int) (furniture : Furniture)
    (ws_type : String) (blocks : List Rect) (gap_y : Int)
    (door_tip : Option (Int × Int)) (radius : Int) :
    (∀ (r r' : Int) (c c' : Candidate), r ≤ r' →
      place_workstations_double_wall room_w room_d furniture ws_type r blocks gap_y
        door_tip radius = some c →
      place_workstations_double_wall room_w room_d furniture ws_type r' blocks gap_y
        door_tip radius = some c' →
      c.seats_placed ≤ c'.seats_placed) ∧
    (∀ (r : Int) (c : Candidate),
      place_workstations_double_wall room_w room_d furniture ws_type r blocks gap_y
        door_tip radius = some c →
      c.seats_placed < r → c.ok = false) ∧
    (∀ (r : Int) (c : Candidate),
      place_workstations_double_wall room_w room_d furniture ws_type r blocks gap_y
        door_tip radius = some c →
      c.seats_placed ≤ dw_capacity room_w room_d furniture ws_type blocks gap_y
        door_tip radius) ∧
    (∀ (r : Int) (c : Candidate),
      place_workstations_double_wall room_w room_d furniture ws_type r blocks gap_y
        door_tip radius = some c →
      dw_capacity room_w room_d furniture ws_type blocks gap_y door_tip radius < r →
      c.ok = false) := by
  have okf : ∀ (r : Int) (c : Candidate),
      place_workstations_double_wall room_w room_d furniture ws_type r blocks gap_y
        door_tip radius = some c →
      c.seats_placed < r → c.ok = false := by
    intro r c hc hlt
    cases hfs : furniture ws_type with
    | none => simp [place_workstations_double_wall, ws_size, hfs] at hc
    | some f =>
      simp only [place_workstations_double_wall, ws_size, hfs, Option.map_some'] at hc
      cases Option.some.inj hc
      dsimp only
      refine Bool.and_eq_false_iff.mpr (Or.inl ?_)
      exact decide_eq_false fun hge => absurd hlt (not_lt.mpr hge)
  have mono : ∀ (r r' : Int) (c c' : Candidate), r ≤ r' →
      place_workstations_double_wall room_w room_d furniture ws_type r blocks gap_y
        door_tip radius = some c →
      place_workstations_double_wall room_w room_d furniture ws_type r' blocks gap_y
        door_tip radius = some c' →
      c.seats_placed ≤ c'.seats_placed := by
    intro r r' c c' hrr hc hc'
    cases hfs : furniture ws_type with
    | none => simp [place_workstations_double_wall, ws_size, hfs] at hc
    | some f =>
      simp only [place_workstations_double_wall, ws_size, hfs, Option.map_some'] at hc hc'
      cases Option.some.inj hc
      cases Option.some.inj hc'
      dsimp only
      have hm := dw_loop_mono room_w room_d ws_type f.w f.d gap_y door_tip radius blocks
        r r' hrr (dw_fuel room_d) { pos := 0, seat_idx := 1, placed := blocks, items := [] }
      omega
  have cap : ∀ (r : Int) (c : Candidate),
      place_workstations_double_wall room_w room_d furniture ws_type r blocks gap_y
        door_tip radius = some c →
      c.seats_placed ≤ dw_capacity room_w room_d furniture ws_type blocks gap_y
        door_tip radius := by
    intro r c hc
    cases hfs : furniture ws_type with
    | none => simp [place_workstations_double_wall, ws_size, hfs] at hc
    | some f =>
      simp only [place_workstations_double_wall, ws_size, hfs, Option.map_some'] at hc
      cases Option.some.inj hc
      unfold dw_capacity
      simp only [place_workstations_double_wall, ws_size, hfs, Option.map_some']
      by_cases hR : r ≤ 2 * (dw_fuel room_d : Int) + 2
      · have hm := dw_loop_mono room_w room_d ws_type f.w f.d gap_y door_tip radius
          blocks r (2 * (dw_fuel room_d : Int) + 2) hR (dw_fuel room_d)
          { pos := 0, seat_idx := 1, placed := blocks, items := [] }
        omega
      · have he := dw_loop_guard_free room_w room_d ws_type f.w f.d gap_y door_tip radius
          blocks r (2 * (dw_fuel room_d : Int) + 2) (dw_fuel room_d)
          { pos := 0, seat_idx := 1, placed := blocks, items := [] }
          (by dsimp only; omega) (by dsimp only; omega)
        rw [he]
  exact ⟨mono, okf, cap,
    fun r c hc hlt => okf r c hc (lt_of_le_of_lt (cap r c hc) hlt)⟩

/-- Witness for the amended C7 at a concrete double-wall configuration. -/
theorem C7_seats_monotone_amended_witness :
    cW1.seats_placed ≤ cW2.seats_placed :=
  (C7_seats_monotone_amended 4000 1400 furC7 "ws_1200x600" [] 0 none 900).1 1 2 cW1 cW2
    (by decide) (by decide) (by decide)

/- ======================= ranking lemmas (compare_layouts) ======================= -/

theorem insert_desc_perm (x : Nat × ℚ × ScoreBreakdown)
    (l : List (Nat × ℚ × ScoreBreakdown)) : (insert_desc x l).Perm (x :: l) := by
  induction l with
  | nil => exact List.Perm.refl _
  | cons y ys ih =>
    simp only [insert_desc]
    split
    · exact List.Perm.refl _
    · exact (ih.cons y).trans (List.Perm.swap x y ys)

theorem insert_desc_mem (x z : Nat × ℚ × ScoreBreakdown)
    (l : List (Nat × ℚ × ScoreBreakdown)) :
    z ∈ insert_desc x l ↔ z = x ∨ z ∈ l := by
  rw [(insert_desc_perm x l).mem_iff, List.mem_cons]

theorem sort_desc_foldl_perm :
    ∀ (l acc : List (Nat × ℚ × ScoreBreakdown)),
    (l.foldl (fun acc x => insert_desc x acc) acc).Perm (acc ++ l) := by
  intro l
  induction l with
  | nil => intro acc; simp
  | cons x xs ih =>
    intro acc
    rw [List.foldl_cons]
    refine (ih (insert_desc x acc)).trans ?_
    refine (List.Perm.append_right xs (insert_desc_perm x acc)).trans ?_
    exact List.perm_middle.symm

theorem sort_desc_perm (l : List (Nat × ℚ × ScoreBreakdown)) : (sort_desc l).Perm l := by
  unfold sort_desc
  simpa using sort_desc_foldl_perm l []

theorem insert_desc_pairwise (x : Nat × ℚ × ScoreBreakdown) :
    ∀ (l : List (Nat × ℚ × ScoreBreakdown)),
    l.Pairwise (fun a b => b.2.1 < a.2.1 ∨ (a.2.1 = b.2.1 ∧ a.1 < b.1)) →
    (∀ a ∈ l, a.1 < x.1) →
    (insert_desc x l).Pairwise
      (fun a b => b.2.1 < a.2.1 ∨ (a.2.1 = b.2.1 ∧ a.1 < b.1)) := by
  intro l
  induction l with
  | nil =>
    intro _ _
    simp only [insert_desc]
    exact List.pairwise_singleton _ _
  | cons y ys ih =>
    intro hp hidx
    have hp' := List.pairwise_cons.mp hp
    simp only [insert_desc]
    split
    case isTrue hlt =>
      refine List.Pairwise.cons ?_ hp
      intro z hz
      rcases List.mem_cons.mp hz with hz | hz
      · subst hz; exact Or.inl hlt
      · rcases hp'.1 z hz with h | h
        · exact Or.inl (h.trans hlt)
        · exact Or.inl (h.1 ▸ hlt)
    case isFalse hge =>
      refine List.Pairwise.cons ?_
        (ih hp'.2 (fun a ha => hidx a (List.mem_cons_of_mem y ha)))
      intro z hz
      rcases (insert_desc_mem x z ys).mp hz with hz | hz
      · subst hz
        rcases lt_or_eq_of_le (le_of_not_lt hge) with h | h
        · exact Or.inl h
        · exact Or.inr ⟨h.symm, hidx y (List.mem_cons_self y ys)⟩
      · exact hp'.1 z hz

theorem sort_desc_foldl_pairwise :
    ∀ (l acc : List (Nat × ℚ × ScoreBreakdown)),
    acc.Pairwise (fun a b => b.2.1 < a.2.1 ∨ (a.2.1 = b.2.1 ∧ a.1 < b.1)) →
    (∀ a ∈ acc, ∀ b ∈ l, a.1 < b.1) →
    l.Pairwise (fun a b => a.1 < b.1) →
    (l.foldl (fun acc x => insert_desc x acc) acc).Pairwise
      (fun a b => b.2.1 < a.2.1 ∨ (a.2.1 = b.2.1 ∧ a.1 < b.1)) := by
  intro l
  induction l with
  | nil => intro acc hp _ _; exact hp
  | cons x xs ih =>
    intro acc hp hidx hl
    rw [List.foldl_cons]
    have hl' := List.pairwise_cons.mp hl
    refine ih (insert_desc x acc) ?_ ?_ hl'.2
    · exact insert_desc_pairwise x acc hp
        (fun a ha => hidx a ha x (List.mem_cons_self x xs))
    · intro a ha b hb
      rcases (insert_desc_mem x a acc).mp ha with h | h
      · subst h; exact hl'.1 b hb
      · exact hidx a h b (List.mem_cons_of_mem x hb)

theorem mem_enumFrom_fst_le {α : Type} :
    ∀ (l : List α) (k : Nat) (p : Nat × α), p ∈ List.enumFrom k l → k ≤ p.1 := by
  intro l
  induction l with
  | nil => intro k p hp; cases hp
  | cons x xs ih =>
    intro k p hp
    simp only [List.enumFrom] at hp
    rcases List.mem_cons.mp hp with h | h
    · subst h; exact le_refl _
    · exact Nat.le_of_succ_le (ih (k + 1) p h)

theorem enumFrom_pairwise_fst {α : Type} :
    ∀ (l : List α) (k : Nat),
    (List.enumFrom k l).Pairwise (fun a b => a.1 < b.1) := by
  intro l
  induction l with
  | nil => intro k; exact List.Pairwise.nil
  | cons x xs ih =>
    intro k
    simp only [List.enumFrom]
    refine List.Pairwise.cons ?_ (ih (k + 1))
    intro b hb
    exact Nat.lt_of_succ_le (mem_enumFrom_fst_le xs (k + 1) b hb)

/-- C6: `compare_layouts` returns a permutation of the indexed scored
candidates, ordered by total score in strictly descending order except
that candidates with equal totals appear in increasing input-index
order (stable descending sort). -/
theorem C6_compare_layouts_sorted_stable (scorers : Scorers) (results : List Candidate)
    (room_w room_d : Int) (weights : Weights)
    (door_positions : Option (List (Int × Int))) (window_sides : Option (List String)) :
    (compare_layouts scorers results room_w room_d weights door_positions
        window_sides).Perm
      ((results.enum).map (fun p => (p.1, calculate_layout_score scorers p.2 room_w
        room_d weights door_positions window_sides))) ∧
    (compare_layouts scorers results room_w room_d weights door_positions
        window_sides).Pairwise
      (fun a b => b.2.1 < a.2.1 ∨ (a.2.1 = b.2.1 ∧ a.1 < b.1)) := by
  constructor
  · exact sort_desc_perm _
  · have hm : ((results.enum).map (fun p => (p.1, calculate_layout_score scorers p.2
        room_w room_d weights door_positions window_sides))).Pairwise
        (fun a b => a.1 < b.1) := by
      refine List.Pairwise.map _ ?_ (enumFrom_pairwise_fst results 0)
      intro a b hab
      exact hab
    exact sort_desc_foldl_pairwise _ [] List.Pairwise.nil
      (fun a ha => absurd ha (List.not_mem_nil a)) hm

/- ======================= equipment accounting lemmas ======================= -/

theorem sublist_erase_of_cons_sublist {a : String} :
    ∀ {l r : List String}, (a :: l).Sublist r → l.Sublist (r.erase a) := by
  intro l r h
  induction r with
  | nil => cases h
  | cons b bs ih =>
    cases h with
    | cons _ h' =>
      rw [List.erase_cons]
      split
      · exact (List.Sublist.cons a (List.Sublist.refl l)).trans h'
      · exact List.Sublist.cons b (ih h')
    | cons₂ _ h' =>
      rw [List.erase_cons_head]
      exact h'

theorem remove_equipment_types_subset :
    ∀ (placed_items : List Item) (remaining : List String) (x : String),
    x ∈ remove_equipment_types remaining placed_items → x ∈ remaining := by
  intro pl
  induction pl with
  | nil => intro remaining x h; exact h
  | cons it rest ih =>
    intro remaining x h
    rw [remove_equipment_types, List.foldl_cons] at h
    by_cases hty : it.ty = ""
    · rw [if_pos hty] at h
      exact ih remaining x h
    · rw [if_neg hty] at h
      exact List.mem_of_mem_erase (ih (remaining.erase it.ty) x h)

theorem remove_equipment_types_length :
    ∀ (placed_items : List Item) (remaining : List String),
    (placed_items.map Item.ty).Sublist remaining → "" ∉ remaining →
    (remove_equipment_types remaining placed_items).length + placed_items.length =
      remaining.length := by
  intro pl
  induction pl with
  | nil => intro remaining _ _; simp [remove_equipment_types]
  | cons it rest ih =>
    intro remaining hsub hne
    simp only [List.map_cons] at hsub
    have hmem : it.ty ∈ remaining := hsub.subset (List.mem_cons_self _ _)
    have hty : ¬ it.ty = "" := fun h => hne (h ▸ hmem)
    rw [remove_equipment_types, List.foldl_cons, if_neg hty]
    have hrec := ih (remaining.erase it.ty) (sublist_erase_of_cons_sublist hsub)
      (fun h => hne (List.mem_of_mem_erase h))
    rw [remove_equipment_types] at hrec
    have hl := List.length_erase_of_mem hmem
    have hpos : 0 < remaining.length := List.length_pos_of_mem hmem
    simp only [List.length_cons]
    omega

theorem eq_place_one_items (room_w room_d : Int) (furniture : Furniture) (wall : String)
    (gap_y : Int) (ac : List (Int × Int)) (ar : Option Int) (drsw : Option (List Rect))
    (dcm ecm : Int) (sf eqk : String) (s s2 : EqState)
    (h : eq_place_one room_w room_d furniture wall gap_y ac ar drsw dcm ecm sf eqk s =
      some s2) :
    s2.items = s.items ∨ ∃ it : Item, it.ty = eqk ∧ s2.items = s.items ++ [it] := by
  unfold eq_place_one at h
  split at h
  · cases h
  · dsimp only at h
    split at h
    next pos r heq =>
      cases Option.some.inj h
      right
      exact ⟨{ ty := eqk, rect := r, label := some ("EQ" ++ toString s.idx) }, rfl, rfl⟩
    next heq =>
      cases Option.some.inj h
      left
      rfl

theorem eq_items_loop_items (room_w room_d : Int) (furniture : Furniture) (wall : String)
    (gap_y : Int) (ac : List (Int × Int)) (ar : Option Int) (drsw : Option (List Rect))
    (dcm ecm : Int) (sf : String) :
    ∀ (es : List String) (s s2 : EqState),
    eq_items_loop room_w room_d furniture wall gap_y ac ar drsw dcm ecm sf es s =
      some s2 →
    ∃ suffix : List Item, s2.items = s.items ++ suffix ∧
      (suffix.map Item.ty).Sublist es := by
  intro es
  induction es with
  | nil =>
    intro s s2 h
    cases Option.some.inj h
    exact ⟨[], by simp, List.nil_sublist _⟩
  | cons eqk rest ih =>
    intro s s2 h
    rw [eq_items_loop] at h
    split at h
    next heq => cases h
    next s3 heq =>
      obtain ⟨suf2, hit2, hsub2⟩ := ih s3 s2 h
      rcases eq_place_one_items room_w room_d furniture wall gap_y ac ar drsw dcm ecm sf
        eqk s s3 heq with h1 | ⟨it, hty, h1⟩
      · exact ⟨suf2, by rw [hit2, h1], List.Sublist.cons eqk hsub2⟩
      · refine ⟨it :: suf2, ?_, ?_⟩
        · rw [hit2, h1]
          simp
        · simp only [List.map_cons, hty]
          exact List.Sublist.cons₂ eqk hsub2

theorem place_equipment_wall_only_sublist (room_w room_d : Int) (furniture : Furniture)
    (equipment : List String) (blocks : List Rect) (wall : String) (start_y gap_y : Int)
    (ac : List (Int × Int)) (ar : Option Int) (drsw : Option (List Rect)) (dcm ecm : Int)
    (sf : String) (eq_items : List Item) (placed2 : List Rect)
    (h : place_equipment_wall_only room_w room_d furniture equipment blocks wall start_y
      gap_y ac ar drsw dcm ecm sf = some (eq_items, placed2)) :
    (eq_items.map Item.ty).Sublist equipment := by
  unfold place_equipment_wall_only at h
  split at h
  · cases h
  · obtain ⟨s2, hl, hpair⟩ := Option.map_eq_some'.mp h
    have h1 : s2.items = eq_items := congrArg Prod.fst hpair
    obtain ⟨suffix, hit, hsub⟩ := eq_items_loop_items room_w room_d furniture wall gap_y
      ac ar drsw dcm ecm sf equipment _ s2 hl
    rw [← h1, hit]
    simpa using hsub

theorem eq_walls_loop_length (room_w room_d : Int) (furniture : Furniture)
    (desk_walls : List String) (drbw : String → List Rect) (ac : List (Int × Int))
    (dcr dscm ecm : Int) (dsu : String) (door_offset : Option Int) :
    ∀ (walls remaining : List String) (acc : List Item) (placed : List Rect)
      (out : List Item × List Rect × List String),
    eq_walls_loop room_w room_d furniture desk_walls drbw ac dcr dscm ecm dsu door_offset
      walls remaining acc placed = some out →
    "" ∉ remaining →
    out.1.length ≤ acc.length + remaining.length := by
  intro walls
  induction walls with
  | nil =>
    intro remaining acc placed out h hne
    cases Option.some.inj h
    dsimp only
    omega
  | cons wall walls ih =>
    intro remaining acc placed out h hne
    rw [eq_walls_loop.eq_def] at h
    dsimp only at h
    split at h
    · cases Option.some.inj h
      dsimp only
      omega
    · split at h
      next heq => cases h
      next eq_items placed2 heq =>
        have hsub := place_equipment_wall_only_sublist _ _ _ _ _ _ _ _ _ _ _ _ _ _ _ _
          heq
        have hlen := remove_equipment_types_length eq_items remaining hsub hne
        have hne2 : "" ∉ remove_equipment_types remaining eq_items :=
          fun hm => hne (remove_equipment_types_subset eq_items remaining "" hm)
        have hrec := ih (remove_equipment_types remaining eq_items) (acc ++ eq_items)
          placed2 out h hne2
        have hml : (eq_items.map Item.ty).length = eq_items.length :=
          List.length_map _ _
        have hle : (eq_items.map Item.ty).length ≤ remaining.length := hsub.length_le
        simp only [List.length_append] at hrec
        omega

/-- C5 (amended): for a NON-EMPTY equipment list without the empty key,
a successful `place_equipment_along_wall` returns a copy of the base
candidate whose items are the base items followed by the placed
equipment items, with equipment_target the length of the requested
list, equipment_placed the number of items actually placed (at most
the target; unplaceable items are skipped), and all other candidate
fields unchanged.  (For an empty list the source returns the base
candidate without the equipment fields, refuting the unconditional
claim.) -/
theorem C5_equipment_fields_amended (base_result : Candidate) (room_w room_d : Int)
    (furniture : Furniture) (equipment_list : List String) (blocks : List Rect)
    (exo : Option Int) (dcr dscm ecm : Int) (door_side : String)
    (door_offset : Option Int) (c : Candidate)
    (hne : equipment_list ≠ []) (hnil : "" ∉ equipment_list)
    (h : place_equipment_along_wall base_result room_w room_d furniture equipment_list
      blocks exo dcr dscm ecm door_side door_offset = some c) :
    ∃ eqItems : List Item,
      c.items = base_result.items ++ eqItems ∧
      c.equipment_target = some equipment_list.length ∧
      c.equipment_placed = some eqItems.length ∧
      eqItems.length ≤ equipment_list.length ∧
      c.ok = base_result.ok ∧ c.seats_placed = base_result.seats_placed ∧
      c.seats_required = base_result.seats_required ∧
      c.ws_type = base_result.ws_type ∧ c.pattern = base_result.pattern := by
  unfold place_equipment_along_wall at h
  rw [if_neg hne] at h
  dsimp only at h
  split at h
  next heq => cases h
  next equipment_items placed' rem' heq =>
    cases Option.some.inj h
    have hlen := eq_walls_loop_length _ _ _ _ _ _ _ _ _ _ _ _ equipment_list [] _ _ heq
      hnil
    refine ⟨equipment_items, rfl, rfl, rfl, ?_, rfl, rfl, rfl, rfl, rfl⟩
    simpa using hlen

/-- Witness for the amended C5 at a concrete equipment run. -/
theorem C5_equipment_fields_amended_witness :
    ∃ eqItems : List Item,
      cWE.items = baseC5.items ++ eqItems ∧
      cWE.equipment_target = some (["storage_M"] : List String).length ∧
      cWE.equipment_placed = some eqItems.length ∧
      eqItems.length ≤ (["storage_M"] : List String).length ∧
      cWE.ok = baseC5.ok ∧ cWE.seats_placed = baseC5.seats_placed ∧
      cWE.seats_required = baseC5.seats_required ∧
      cWE.ws_type = baseC5.ws_type ∧ cWE.pattern = baseC5.pattern :=
  C5_equipment_fields_amended baseC5 3000 3000 furE ["storage_M"] [] none 1225 200 100 ""
    none cWE (by decide) (by decide) (by decide)

/- ======================= placement invariant lemmas (double wall) ======================= -/

theorem containsR_refl (r : Rect) : r.containsR r :=
  ⟨le_refl _, le_refl _, le_refl _, le_refl _⟩

theorem inside_room_of_containsR {u r : Rect} {W D : Int} (hc : u.containsR r)
    (h : inside_room u W D = true) : inside_room r W D = true := by
  rw [inside_room_eq_true_iff] at h ⊢
  obtain ⟨h1, h2, h3, h4⟩ := hc
  simp only [Rect.x2, Rect.y2] at *
  omega

theorem add_wall_left_eq (items : List Item) (lab : String) (room_size : Int)
    (ws_type : String) (position ua ud : Int) :
    add_wall_desk_and_chair items lab room_size ws_type "L" position ua ud false =
      items ++
        [{ ty := "desk",
           rect := { x := 0, y := position, w := min (parse_desk_depth ws_type) ud, d := ua },
           label := some (lab ++ "_D") },
         { ty := "chair",
           rect := calc_chair_rect 0 position (min (parse_desk_depth ws_type) ud) ua "R",
           label := some (lab ++ "_C"), chair_back := some "R",
           chair_rotate := some 0 }] := rfl

theorem add_wall_right_eq (items : List Item) (lab : String) (room_size : Int)
    (ws_type : String) (position ua ud : Int) :
    add_wall_desk_and_chair items lab room_size ws_type "R" position ua ud false =
      items ++
        [{ ty := "desk",
           rect := { x := room_size - min (parse_desk_depth ws_type) ud, y := position, w := min (parse_desk_depth ws_type) ud, d := ua },
           label := some (lab ++ "_D") },
         { ty := "chair",
           rect := calc_chair_rect (room_size - min (parse_desk_depth ws_type) ud)
             position (min (parse_desk_depth ws_type) ud) ua "L",
           label := some (lab ++ "_C"), chair_back := some "L",
           chair_rotate := some 0 }] := rfl

theorem dw_unit_rects_left (pos ws_w ws_d dd : Int) (hd0 : 0 ≤ dd)
    (hd1 : dd + 705 ≤ ws_d) (hw : 700 ≤ ws_w) :
    Rect.containsR { x := 0, y := pos, w := ws_d, d := ws_w }
      { x := 0, y := pos, w := dd, d := ws_w } ∧
    Rect.containsR { x := 0, y := pos, w := ws_d, d := ws_w }
      (calc_chair_rect 0 pos dd ws_w "R") ∧
    intersects { x := 0, y := pos, w := dd, d := ws_w }
      (calc_chair_rect 0 pos dd ws_w "R") = false := by
  have hc : calc_chair_rect 0 pos dd ws_w "R" =
      { x := 0 + dd + CHAIR_DESK_GAP, y := truncHalf (2 * pos + ws_w - CHAIR_SIZE),
        w := CHAIR_SIZE, d := CHAIR_SIZE } := rfl
  have hb := truncHalf_bounds (2 * pos + ws_w - CHAIR_SIZE)
  rw [hc]
  refine ⟨?_, ?_, ?_⟩
  · simp only [Rect.containsR, Rect.x2, Rect.y2]
    omega
  · simp only [Rect.containsR, Rect.x2, Rect.y2, CHAIR_SIZE, CHAIR_DESK_GAP] at hb ⊢
    omega
  · rw [intersects_eq_false_iff]
    simp only [Rect.x2, Rect.y2, CHAIR_DESK_GAP, CHAIR_SIZE]
    omega

theorem dw_unit_rects_right (room_w pos ws_w ws_d dd : Int) (hd0 : 0 ≤ dd)
    (hd1 : dd + 705 ≤ ws_d) (hw : 700 ≤ ws_w) :
    Rect.containsR { x := room_w - ws_d, y := pos, w := ws_d, d := ws_w }
      { x := room_w - dd, y := pos, w := dd, d := ws_w } ∧
    Rect.containsR { x := room_w - ws_d, y := pos, w := ws_d, d := ws_w }
      (calc_chair_rect (room_w - dd) pos dd ws_w "L") ∧
    intersects { x := room_w - dd, y := pos, w := dd, d := ws_w }
      (calc_chair_rect (room_w - dd) pos dd ws_w "L") = false := by
  have hc : calc_chair_rect (room_w - dd) pos dd ws_w "L" =
      { x := room_w - dd - CHAIR_DESK_GAP - CHAIR_SIZE,
        y := truncHalf (2 * pos + ws_w - CHAIR_SIZE),
        w := CHAIR_SIZE, d := CHAIR_SIZE } := rfl
  have hb := truncHalf_bounds (2 * pos + ws_w - CHAIR_SIZE)
  rw [hc]
  refine ⟨?_, ?_, ?_⟩
  · simp only [Rect.containsR, Rect.x2, Rect.y2]
    omega
  · simp only [Rect.containsR, Rect.x2, Rect.y2, CHAIR_SIZE, CHAIR_DESK_GAP] at hb ⊢
    omega
  · rw [intersects_eq_false_iff]
    simp only [Rect.x2, Rect.y2, CHAIR_DESK_GAP, CHAIR_SIZE]
    omega

theorem dw_try_left_invariant (room_w room_d : Int) (ws_type : String) (ws_w ws_d : Int)
    (door_tip : Option (Int × Int)) (radius : Int) (blocks : List Rect) (r : Int)
    (s : SweepState)
    (hd0 : 0 ≤ min (parse_desk_depth ws_type) ws_d)
    (hd1 : min (parse_desk_depth ws_type) ws_d + 705 ≤ ws_d) (hw : 700 ≤ ws_w)
    (hpair : s.items.Pairwise (fun a b => intersects a.rect b.rect = false))
    (hin : ∀ it ∈ s.items, inside_room it.rect room_w room_d = true)
    (hbint : ∀ it ∈ s.items, ∀ blk ∈ blocks, intersects it.rect blk = false)
    (hcont : ∀ it ∈ s.items, ∃ u ∈ s.placed, u.containsR it.rect)
    (hblk : ∀ b ∈ blocks, b ∈ s.placed) :
    (dw_try_left room_w room_d ws_type ws_w ws_d door_tip radius blocks r
        s).items.Pairwise (fun a b => intersects a.rect b.rect = false) ∧
    (∀ it ∈ (dw_try_left room_w room_d ws_type ws_w ws_d door_tip radius blocks r
        s).items, inside_room it.rect room_w room_d = true) ∧
    (∀ it ∈ (dw_try_left room_w room_d ws_type ws_w ws_d door_tip radius blocks r
        s).items, ∀ blk ∈ blocks, intersects it.rect blk = false) ∧
    (∀ it ∈ (dw_try_left room_w room_d ws_type ws_w ws_d door_tip radius blocks r
        s).items, ∃ u ∈ (dw_try_left room_w room_d ws_type ws_w ws_d door_tip radius
          blocks r s).placed, u.containsR it.rect) ∧
    (∀ b ∈ blocks, b ∈ (dw_try_left room_w room_d ws_type ws_w ws_d door_tip radius
        blocks r s).placed) := by
  unfold dw_try_left
  dsimp only
  split
  case isFalse h => exact ⟨hpair, hin, hbint, hcont, hblk⟩
  case isTrue h =>
    dsimp only
    simp only [Bool.and_eq_true] at h
    obtain ⟨hu_in, hu_pl⟩ := (can_place_eq_true_iff _ _ _ _).mp h.1.1.1
    obtain ⟨hudesk, huchair, hdc⟩ := dw_unit_rects_left s.pos ws_w ws_d
      (min (parse_desk_depth ws_type) ws_d) hd0 hd1 hw
    rw [add_wall_left_eq]
    refine ⟨?_, ?_, ?_, ?_, ?_⟩
    · rw [List.pairwise_append]
      refine ⟨hpair, ?_, ?_⟩
      · refine List.Pairwise.cons ?_ (List.pairwise_singleton _ _)
        intro z hz
        rw [List.mem_singleton] at hz
        subst hz
        exact hdc
      · intro a ha b hb
        obtain ⟨u, hu, hcu⟩ := hcont a ha
        have huu : intersects u { x := 0, y := s.pos, w := ws_d, d := ws_w } = false :=
          intersects_symm_false _ _ (hu_pl u hu)
        rcases List.mem_cons.mp hb with hb | hb
        · subst hb
          exact intersects_false_of_containsR hcu hudesk huu
        · rw [List.mem_singleton] at hb
          subst hb
          exact intersects_false_of_containsR hcu huchair huu
    · intro it hit
      rcases List.mem_append.mp hit with hit | hit
      · exact hin it hit
      · rcases List.mem_cons.mp hit with hit | hit
        · subst hit
          exact inside_room_of_containsR hudesk hu_in
        · rw [List.mem_singleton] at hit
          subst hit
          exact inside_room_of_containsR huchair hu_in
    · intro it hit blk hblk2
      rcases List.mem_append.mp hit with hit | hit
      · exact hbint it hit blk hblk2
      · have hub : intersects { x := 0, y := s.pos, w := ws_d, d := ws_w } blk = false :=
          hu_pl blk (hblk blk hblk2)
        rcases List.mem_cons.mp hit with hit | hit
        · subst hit
          exact intersects_false_of_containsR hudesk (containsR_refl blk) hub
        · rw [List.mem_singleton] at hit
          subst hit
          exact intersects_false_of_containsR huchair (containsR_refl blk) hub
    · intro it hit
      rcases List.mem_append.mp hit with hit | hit
      · obtain ⟨u, hu, hcu⟩ := hcont it hit
        exact ⟨u, List.mem_append_left _ hu, hcu⟩
      · refine ⟨{ x := 0, y := s.pos, w := ws_d, d := ws_w },
          List.mem_append_right _ (List.mem_singleton_self _), ?_⟩
        rcases List.mem_cons.mp hit with hit | hit
        · subst hit
          exact hudesk
        · rw [List.mem_singleton] at hit
          subst hit
          exact huchair
    · intro b hb
      exact List.mem_append_left _ (hblk b hb)

theorem dw_try_right_invariant (room_w room_d : Int) (ws_type : String) (ws_w ws_d : Int)
    (door_tip : Option (Int × Int)) (radius : Int) (blocks : List Rect) (r : Int)
    (s : SweepState)
    (hd0 : 0 ≤ min (parse_desk_depth ws_type) ws_d)
    (hd1 : min (parse_desk_depth ws_type) ws_d + 705 ≤ ws_d) (hw : 700 ≤ ws_w)
    (hpair : s.items.Pairwise (fun a b => intersects a.rect b.rect = false))
    (hin : ∀ it ∈ s.items, inside_room it.rect room_w room_d = true)
    (hbint : ∀ it ∈ s.items, ∀ blk ∈ blocks, intersects it.rect blk = false)
    (hcont : ∀ it ∈ s.items, ∃ u ∈ s.placed, u.containsR it.rect)
    (hblk : ∀ b ∈ blocks, b ∈ s.placed) :
    (dw_try_right room_w room_d ws_type ws_w ws_d door_tip radius blocks r
        s).items.Pairwise (fun a b => intersects a.rect b.rect = false) ∧
    (∀ it ∈ (dw_try_right room_w room_d ws_type ws_w ws_d door_tip radius blocks r
        s).items, inside_room it.rect room_w room_d = true) ∧
    (∀ it ∈ (dw_try_right room_w room_d ws_type ws_w ws_d door_tip radius blocks r
        s).items, ∀ blk ∈ blocks, intersects it.rect blk = false) ∧
    (∀ it ∈ (dw_try_right room_w room_d ws_type ws_w ws_d door_tip radius blocks r
        s).items, ∃ u ∈ (dw_try_right room_w room_d ws_type ws_w ws_d door_tip radius
          blocks r s).placed, u.containsR it.rect) ∧
    (∀ b ∈ blocks, b ∈ (dw_try_right room_w room_d ws_type ws_w ws_d door_tip radius
        blocks r s).placed) := by
  unfold dw_try_right
  dsimp only
  split
  case isFalse h => exact ⟨hpair, hin, hbint, hcont, hblk⟩
  case isTrue h =>
    dsimp only
    simp only [Bool.and_eq_true] at h
    obtain ⟨hu_in, hu_pl⟩ := (can_place_eq_true_iff _ _ _ _).mp h.1.1.1
    obtain ⟨hudesk, huchair, hdc⟩ := dw_unit_rects_right room_w s.pos ws_w ws_d
      (min (parse_desk_depth ws_type) ws_d) hd0 hd1 hw
    rw [add_wall_right_eq]
    refine ⟨?_, ?_, ?_, ?_, ?_⟩
    · rw [List.pairwise_append]
      refine ⟨hpair, ?_, ?_⟩
      · refine List.Pairwise.cons ?_ (List.pairwise_singleton _ _)
        intro z hz
        rw [List.mem_singleton] at hz
        subst hz
        exact hdc
      · intro a ha b hb
        obtain ⟨u, hu, hcu⟩ := hcont a ha
        have huu : intersects u { x := room_w - ws_d, y := s.pos, w := ws_d, d := ws_w } =
            false :=
          intersects_symm_false _ _ (hu_pl u hu)
        rcases List.mem_cons.mp hb with hb | hb
        · subst hb
          exact intersects_false_of_containsR hcu hudesk huu
        · rw [List.mem_singleton] at hb
          subst hb
          exact intersects_false_of_containsR hcu huchair huu
    · intro it hit
      rcases List.mem_append.mp hit with hit | hit
      · exact hin it hit
      · rcases List.mem_cons.mp hit with hit | hit
        · subst hit
          exact inside_room_of_containsR hudesk hu_in
        · rw [List.mem_singleton] at hit
          subst hit
          exact inside_room_of_containsR huchair hu_in
    · intro it hit blk hblk2
      rcases List.mem_append.mp hit with hit | hit
      · exact hbint it hit blk hblk2
      · have hub : intersects { x := room_w - ws_d, y := s.pos, w := ws_d, d := ws_w }
            blk = false :=
          hu_pl blk (hblk blk hblk2)
        rcases List.mem_cons.mp hit with hit | hit
        · subst hit
          exact intersects_false_of_containsR hudesk (containsR_refl blk) hub
        · rw [List.mem_singleton] at hit
          subst hit
          exact intersects_false_of_containsR huchair (containsR_refl blk) hub
    · intro it hit
      rcases List.mem_append.mp hit with hit | hit
      · obtain ⟨u, hu, hcu⟩ := hcont it hit
        exact ⟨u, List.mem_append_left _ hu, hcu⟩
      · refine ⟨{ x := room_w - ws_d, y := s.pos, w := ws_d, d := ws_w },
          List.mem_append_right _ (List.mem_singleton_self _), ?_⟩
        rcases List.mem_cons.mp hit with hit | hit
        · subst hit
          exact hudesk
        · rw [List.mem_singleton] at hit
          subst hit
          exact huchair
    · intro b hb
      exact List.mem_append_left _ (hblk b hb)

theorem dw_loop_invariant (room_w room_d : Int) (ws_type : String) (ws_w ws_d gap_y : Int)
    (door_tip : Option (Int × Int)) (radius : Int) (blocks : List Rect) (r : Int)
    (hd0 : 0 ≤ min (parse_desk_depth ws_type) ws_d)
    (hd1 : min (parse_desk_depth ws_type) ws_d + 705 ≤ ws_d) (hw : 700 ≤ ws_w) :
    ∀ (fuel : Nat) (s : SweepState),
    s.items.Pairwise (fun a b => intersects a.rect b.rect = false) →
    (∀ it ∈ s.items, inside_room it.rect room_w room_d = true) →
    (∀ it ∈ s.items, ∀ blk ∈ blocks, intersects it.rect blk = false) →
    (∀ it ∈ s.items, ∃ u ∈ s.placed, u.containsR it.rect) →
    (∀ b ∈ blocks, b ∈ s.placed) →
    (dw_loop room_w room_d ws_type ws_w ws_d gap_y door_tip radius blocks r fuel
        s).items.Pairwise (fun a b => intersects a.rect b.rect = false) ∧
    (∀ it ∈ (dw_loop room_w room_d ws_type ws_w ws_d gap_y door_tip radius blocks r fuel
        s).items, inside_room it.rect room_w room_d = true) ∧
    (∀ it ∈ (dw_loop room_w room_d ws_type ws_w ws_d gap_y door_tip radius blocks r fuel
        s).items, ∀ blk ∈ blocks, intersects it.rect blk = false) ∧
    (∀ it ∈ (dw_loop room_w room_d ws_type ws_w ws_d gap_y door_tip radius blocks r fuel
        s).items, ∃ u ∈ (dw_loop room_w room_d ws_type ws_w ws_d gap_y door_tip radius
          blocks r fuel s).placed, u.containsR it.rect) ∧
    (∀ b ∈ blocks, b ∈ (dw_loop room_w room_d ws_type ws_w ws_d gap_y door_tip radius
        blocks r fuel s).placed) := by
  intro fuel
  induction fuel with
  | zero => intro s h1 h2 h3 h4 h5; exact ⟨h1, h2, h3, h4, h5⟩
  | succ n ih =>
    intro s h1 h2 h3 h4 h5
    rw [dw_loop]
    split
    case isTrue hcnd =>
      obtain ⟨p1, p2, p3, p4, p5⟩ := dw_try_left_invariant room_w room_d ws_type ws_w
        ws_d door_tip radius blocks r s hd0 hd1 hw h1 h2 h3 h4 h5
      obtain ⟨q1, q2, q3, q4, q5⟩ := dw_try_right_invariant room_w room_d ws_type ws_w
        ws_d door_tip radius blocks r _ hd0 hd1 hw p1 p2 p3 p4 p5
      exact ih _ q1 q2 q3 q4 q5
    case isFalse hcnd => exact ⟨h1, h2, h3, h4, h5⟩

/-- C1 (amended): for the double-wall generator with a catalog whose
workstation unit is wide enough for a chair along the wall
(`700 ≤ f.w`) and deep enough for desk, gap and chair across it
(`0 ≤ dd` and `dd + 705 ≤ f.d` for the effective desk depth `dd`),
every returned candidate has pairwise non-intersecting item rectangles,
every item rectangle lies fully inside the room, and no item rectangle
intersects a blocking rectangle.  (Without the catalog bounds the source
can return ok=true with overlapping chairs, refuting the original
claim.) -/
theorem C1_no_overlap_amended (room_w room_d : Int) (furniture : Furniture)
    (ws_type : String) (seats_required : Int) (blocks : List Rect) (gap_y : Int)
    (door_tip : Option (Int × Int)) (radius : Int) (f : FurnSpec) (c : Candidate)
    (hf : furniture ws_type = some f) (hw : 700 ≤ f.w)
    (hd0 : 0 ≤ min (parse_desk_depth ws_type) f.d)
    (hd1 : min (parse_desk_depth ws_type) f.d + 705 ≤ f.d)
    (h : place_workstations_double_wall room_w room_d furniture ws_type seats_required
      blocks gap_y door_tip radius = some c) :
    c.items.Pairwise (fun a b => intersects a.rect b.rect = false) ∧
    (∀ it ∈ c.items, inside_room it.rect room_w room_d = true) ∧
    (∀ it ∈ c.items, ∀ blk ∈ blocks, intersects it.rect blk = false) := by
  simp only [place_workstations_double_wall, ws_size, hf, Option.map_some'] at h
  cases Option.some.inj h
  dsimp only
  obtain ⟨g1, g2, g3, _, _⟩ := dw_loop_invariant room_w room_d ws_type f.w f.d gap_y
    door_tip radius blocks seats_required hd0 hd1 hw (dw_fuel room_d)
    { pos := 0, seat_idx := 1, placed := blocks, items := [] }
    List.Pairwise.nil (fun it hit => absurd hit (List.not_mem_nil it))
    (fun it hit => absurd hit (List.not_mem_nil it))
    (fun it hit => absurd hit (List.not_mem_nil it)) (fun b hb => hb)
  exact ⟨g1, g2, g3⟩

/-- Witness for the amended C1 at a concrete double-wall run. -/
theorem C1_no_overlap_amended_witness :
    cW1.items.Pairwise (fun a b => intersects a.rect b.rect = false) ∧
    (∀ it ∈ cW1.items, inside_room it.rect 4000 1400 = true) ∧
    (∀ it ∈ cW1.items, ∀ blk ∈ ([] : List Rect), intersects it.rect blk = false) :=
  C1_no_overlap_amended 4000 1400 furC7 "ws_1200x600" 1 [] 0 none 900
    { w := 700, d := 1500 } cW1 (by decide) (by decide) (by decide) (by decide) (by decide)
